import Mathlib

/-!
# eCAL subscriber data path (`CDataReader`, ecal/core/src/readwrite/ecal_reader.cpp)

A shallow embedding of the subscriber data reader: the ingress pipeline
(`ApplySample`), the per-publisher clock check (`CheckMessageClock`), the
connection table (`ApplyPublication`, `RemovePublication`), the one-slot read
buffer (`Read`) and the callback registry.

Modelling conventions.

* The object state is an explicit record `CDataReader`; every member function
  takes the state and returns a `Result` holding the return value, the new state
  and the list of user callbacks (and warning logs) it invoked, in call order.
* `std::map`, `std::unordered_map` are association lists with unique keys
  (`mapFind`, `mapSet`, `mapErase`); `std::set<long long>` is a list used only
  through membership and emptiness; `std::deque<size_t>` is a list whose head is
  the front of the queue.
* `long long` values (clocks, times, ids) are `Int`, a sample carrying values of
  the 64-bit range.  The clock difference `current_clock_ - last_clock` is
  computed in 64 bits: `wrapInt64` gives the two's complement value the compiled
  subtraction yields when the exact difference leaves the range.
* A `std::function` callback is an identifier; `none` is the empty function.
* Mutexes are not modelled: each member function runs atomically.  Event time
  stamps, the frequency calculator, debug logging and the registration provider
  are left out.
-/

namespace eCAL

/-! ## Association lists standing for the standard containers -/

/-- Lookup of a key (`find`), `none` standing for `end()`. -/
def mapFind {κ ν : Type} [DecidableEq κ] : List (κ × ν) → κ → Option ν
  | [], _ => none
  | (k1, v) :: rest, k => if k1 = k then some v else mapFind rest k

/-- Assignment `m[k] = v`: overwrites the entry of `k` or adds one. -/
def mapSet {κ ν : Type} [DecidableEq κ] : List (κ × ν) → κ → ν → List (κ × ν)
  | [], k, v => [(k, v)]
  | (k1, v1) :: rest, k, v =>
    if k1 = k then (k, v) :: rest else (k1, v1) :: mapSet rest k v

/-- Removal of a key (`erase`). -/
def mapErase {κ ν : Type} [DecidableEq κ] : List (κ × ν) → κ → List (κ × ν)
  | [], _ => []
  | (k1, v1) :: rest, k =>
    if k1 = k then mapErase rest k else (k1, v1) :: mapErase rest k

/-- The loop `while (q.size() > n) q.pop_front();`. -/
def popWhileOver (n : Nat) : List Nat → List Nat
  | [] => []
  | x :: xs => if (x :: xs).length > n then popWhileOver n xs else x :: xs

/-! ## Data model -/

/-- Transport layer type of an arriving sample (`eTLayerType`); the reader tells
udp, shm and tcp apart and treats every other value alike. -/
inductive eTLayerType where
  | tl_none
  | tl_ecal_udp
  | tl_ecal_shm
  | tl_ecal_tcp
  | tl_all
  deriving DecidableEq, Repr

/-- Subscriber event kinds (`eCAL_Subscriber_Event`). -/
inductive eCAL_Subscriber_Event where
  | sub_event_none
  | sub_event_connected
  | sub_event_disconnected
  | sub_event_dropped
  | sub_event_timeout
  | sub_event_corrupted
  | sub_event_update_connection
  deriving DecidableEq, Repr

open eTLayerType eCAL_Subscriber_Event

/-- Identifier of a user supplied callback function. -/
abbrev CallbackId := Nat

/-- Data type description of a topic (`SDataTypeInformation`). -/
structure SDataTypeInformation where
  name : String := ""
  encoding : String := ""
  descriptor : String := ""
  deriving DecidableEq, Repr

/-- State of one transport layer. -/
structure SLayerState where
  read_enabled : Bool := false
  write_enabled : Bool := false
  active : Bool := false
  deriving DecidableEq, Repr

/-- States of the three transport layers (`SLayerStates`). -/
structure SLayerStates where
  udp : SLayerState := {}
  shm : SLayerState := {}
  tcp : SLayerState := {}
  deriving DecidableEq, Repr

/-- Key of the connection map (`SPublicationInfo`). -/
structure SPublicationInfo where
  host_name : String := ""
  entity_id : String := ""
  process_id : Int := 0
  deriving DecidableEq, Repr

/-- Modelled from the spec: the declaration of `SConnection` (ecal_reader.h) is not
among the sources; it holds the data type info, the publisher layer states and
the connection state, and a value-initialised entry (as made by
`m_connection_map[key]`) has empty data type info and `state = false`. -/
structure SConnection where
  data_type_info : SDataTypeInformation := {}
  layer_states : SLayerStates := {}
  state : Bool := false
  deriving DecidableEq, Repr

/-- Topic information sent along with a payload (`Payload::TopicInfo`). -/
structure TopicInfo where
  hname : String := ""
  pid : Int := 0
  tname : String := ""
  tid : String := ""
  deriving DecidableEq, Repr

/-- Entity id part of `Registration::STopicId`. -/
structure SEntityId where
  entity_id : String := ""
  process_id : Int := 0
  host_name : String := ""
  deriving DecidableEq, Repr

/-- Topic id handed to the receive callback (`Registration::STopicId`). -/
structure STopicId where
  topic_id : SEntityId := {}
  topic_name : String := ""
  deriving DecidableEq, Repr

/-- Data handed to the receive callback (`SReceiveCallbackData`); `buf` is the
payload the pointer refers to, `size` the value `long(size_)`, which is `size_` for
every buffer length a `long` holds. -/
structure SReceiveCallbackData where
  buf : List Nat := []
  size : Nat := 0
  id : Int := 0
  time : Int := 0
  clock : Int := 0
  deriving DecidableEq, Repr

/-- Data handed to an event callback (`SSubEventCallbackData`), without the
event time stamp. -/
structure SSubEventCallbackData where
  type : eCAL_Subscriber_Event := sub_event_none
  clock : Int := 0
  tid : String := ""
  tdatatype : SDataTypeInformation := {}
  deriving DecidableEq, Repr

/-- What a member function does to the outside: user callbacks it invokes and
warnings it logs. -/
inductive Call where
  | receive (cb : CallbackId) (topic_id : STopicId)
      (data_type_info : SDataTypeInformation) (data : SReceiveCallbackData)
  | event (cb : CallbackId) (topic_name : String) (data : SSubEventCallbackData)
  | log_warning (msg : String)
  deriving DecidableEq, Repr

/-- The part of `eCALReader::SAttributes` the data path reads. -/
structure SAttributes where
  topic_name : String := ""
  udp_enable : Bool := true
  shm_enable : Bool := true
  tcp_enable : Bool := true
  deriving DecidableEq, Repr

/-- Member variables of `CDataReader`.  `drop_out_of_order_messages` is the value
`Config::Experimental::GetDropOutOfOrderMessages()` returns. -/
structure CDataReader where
  m_attributes : SAttributes := {}
  drop_out_of_order_messages : Bool := true
  m_created : Bool := false
  m_topic_info : SDataTypeInformation := {}
  m_attr : List (String × String) := []
  m_topic_size : Nat := 0
  m_layers : SLayerStates := {}
  m_sample_hash_queue : List Nat := []
  m_id_set : List Int := []
  m_writer_counter_map : List (String × Int) := []
  m_message_drops : Int := 0
  m_clock : Int := 0
  m_receive_time : Int := 0
  m_receive_callback : Option CallbackId := none
  m_event_callback_map : List (eCAL_Subscriber_Event × Option CallbackId) := []
  m_connection_map : List (SPublicationInfo × SConnection) := []
  m_connection_count : Nat := 0
  m_read_buf : List Nat := []
  m_read_time : Int := 0
  m_read_buf_received : Bool := false
  deriving DecidableEq, Repr

/-- Outcome of a member function: return value, new state, calls made. -/
structure Result (α : Type) where
  ret : α
  state : CDataReader
  calls : List Call := []

/-- Arguments of one `ApplySample` call.  The bytes `payload_[0 .. size_)` are
the list `payload_`, so `size_` is its length. -/
structure Sample where
  topic_info_ : TopicInfo := {}
  payload_ : List Nat := []
  id_ : Int := 0
  clock_ : Int := 0
  time_ : Int := 0
  hash_ : Nat := 0
  layer_ : eTLayerType := tl_ecal_udp
  deriving DecidableEq, Repr

/-- The `size_` argument of `ApplySample`. -/
def Sample.size_ (a : Sample) : Nat := a.payload_.length

/-! ## Construction, stop and the user API -/

/-- Member function `CDataReader::StartTransportLayer`: flag the configured layers as
read enabled. -/
def StartTransportLayer (s : CDataReader) : CDataReader :=
  let l := s.m_layers
  { s with m_layers :=
      { udp := if s.m_attributes.udp_enable then { l.udp with read_enabled := true } else l.udp
        shm := if s.m_attributes.shm_enable then { l.shm with read_enabled := true } else l.shm
        tcp := if s.m_attributes.tcp_enable then { l.tcp with read_enabled := true } else l.tcp } }

/-- Member function `CDataReader::StopTransportLayer`: flag the configured layers as no
longer read enabled. -/
def StopTransportLayer (s : CDataReader) : CDataReader :=
  let l := s.m_layers
  { s with m_layers :=
      { udp := if s.m_attributes.udp_enable then { l.udp with read_enabled := false } else l.udp
        shm := if s.m_attributes.shm_enable then { l.shm with read_enabled := false } else l.shm
        tcp := if s.m_attributes.tcp_enable then { l.tcp with read_enabled := false } else l.tcp } }

/-- Modelled from the spec: the in-class initial values of the members, declared in
ecal_reader.h, which is not among the sources: containers empty, counters 0, flags
false, no callback installed. -/
def CDataReader.initialMembers : CDataReader :=
  { m_attr := [], m_layers := {}, m_sample_hash_queue := [], m_id_set := [],
    m_writer_counter_map := [], m_message_drops := 0, m_receive_callback := none,
    m_event_callback_map := [], m_connection_map := [], m_connection_count := 0,
    m_read_buf := [], m_read_time := 0, m_read_buf_received := false }

/-- The constructor `CDataReader::CDataReader`: the initialiser list sets topic info,
topic size, attributes, receive time, clock and the created flag, the transport layers
are started and the reader is marked created. -/
def CDataReader.create (topic_info_ : SDataTypeInformation) (attr_ : SAttributes)
    (drop_out_of_order : Bool) : CDataReader :=
  { StartTransportLayer
      { CDataReader.initialMembers with
        m_topic_info := topic_info_, m_topic_size := 0, m_attributes := attr_,
        m_receive_time := 0, m_clock := 0, m_created := false,
        drop_out_of_order_messages := drop_out_of_order } with m_created := true }

/-- Member function `CDataReader::Stop`. -/
def Stop (s : CDataReader) : Result Bool :=
  if s.m_created = false then { ret := false, state := s }
  else
    { ret := true
      state := { StopTransportLayer s with
                  m_receive_callback := none
                  m_event_callback_map := []
                  m_created := false } }

/-- Outcome of `Read`: return value, the caller's buffer and time variable after
the call, and the new state. -/
structure ReadResult where
  ret : Bool
  buf_ : List Nat
  time_ : Option Int
  state : CDataReader
  deriving DecidableEq, Repr

/-- Member function `CDataReader::Read`.  `buf_` is the caller's buffer, `time_` the
caller's time variable (`none` for a null pointer).  The function runs alone here: a wait with
a positive timeout ends by timeout with the flag unchanged, and a wait without
limit (negative timeout) on an unfilled slot never returns, which is `none`. -/
def Read (s : CDataReader) (buf_ : List Nat) (time_ : Option Int) (rcv_timeout_ms_ : Int) :
    Option ReadResult :=
  if s.m_created = false then some { ret := false, buf_ := buf_, time_ := time_, state := s }
  else if s.m_read_buf_received = false ∧ rcv_timeout_ms_ < 0 then none
  else if s.m_read_buf_received = true then
    some { ret := true
           buf_ := s.m_read_buf
           time_ := time_.map (fun _ => s.m_read_time)
           state := { s with m_read_buf := [], m_read_buf_received := false } }
  else some { ret := false, buf_ := buf_, time_ := time_, state := s }

/-- Member function `CDataReader::AddReceiveCallback`. -/
def AddReceiveCallback (s : CDataReader) (callback_ : Option CallbackId) : Result Bool :=
  if s.m_created = false then { ret := false, state := s }
  else { ret := true, state := { s with m_receive_callback := callback_ } }

/-- Member function `CDataReader::RemReceiveCallback`. -/
def RemReceiveCallback (s : CDataReader) : Result Bool :=
  if s.m_created = false then { ret := false, state := s }
  else { ret := true, state := { s with m_receive_callback := none } }

/-- Member function `CDataReader::AddEventCallback`. -/
def AddEventCallback (s : CDataReader) (type_ : eCAL_Subscriber_Event)
    (callback_ : Option CallbackId) : Result Bool :=
  if s.m_created = false then { ret := false, state := s }
  else
    { ret := true
      state := { s with m_event_callback_map := mapSet s.m_event_callback_map type_ callback_ } }

/-- Member function `CDataReader::RemEventCallback`. -/
def RemEventCallback (s : CDataReader) (type_ : eCAL_Subscriber_Event) : Result Bool :=
  if s.m_created = false then { ret := false, state := s }
  else
    { ret := true
      state := { s with m_event_callback_map := mapSet s.m_event_callback_map type_ none } }

/-- Member function `CDataReader::SetAttribute`. -/
def SetAttribute (s : CDataReader) (attr_name_ attr_value_ : String) : Result Bool :=
  { ret := true, state := { s with m_attr := mapSet s.m_attr attr_name_ attr_value_ } }

/-- Member function `CDataReader::ClearAttribute`. -/
def ClearAttribute (s : CDataReader) (attr_name_ : String) : Result Bool :=
  { ret := true, state := { s with m_attr := mapErase s.m_attr attr_name_ } }

/-- Member function `CDataReader::SetFilterIDs`. -/
def SetFilterIDs (s : CDataReader) (filter_ids_ : List Int) : Result Unit :=
  { ret := (), state := { s with m_id_set := filter_ids_ } }

/-! ## Connection table and events -/

/-- The callback an event of kind `type_` is dispatched to: the map has an entry
for the kind and the entry is not empty. -/
def eventCallback (s : CDataReader) (type_ : eCAL_Subscriber_Event) : Option CallbackId :=
  match mapFind s.m_event_callback_map type_ with
  | some (some cb) => some cb
  | _ => none

/-- Member function `CDataReader::FireConnectEvent`. -/
def FireConnectEvent (s : CDataReader) (tid_ : String) (tinfo_ : SDataTypeInformation) :
    List Call :=
  match eventCallback s sub_event_connected with
  | some cb =>
    [Call.event cb s.m_attributes.topic_name
      { type := sub_event_connected, clock := 0, tid := tid_, tdatatype := tinfo_ }]
  | none => []

/-- Member function `CDataReader::FireUpdateEvent`. -/
def FireUpdateEvent (s : CDataReader) (tid_ : String) (tinfo_ : SDataTypeInformation) :
    List Call :=
  match eventCallback s sub_event_update_connection with
  | some cb =>
    [Call.event cb s.m_attributes.topic_name
      { type := sub_event_update_connection, clock := 0, tid := tid_, tdatatype := tinfo_ }]
  | none => []

/-- Member function `CDataReader::FireDisconnectEvent`. -/
def FireDisconnectEvent (s : CDataReader) : List Call :=
  match eventCallback s sub_event_disconnected with
  | some cb =>
    [Call.event cb s.m_attributes.topic_name { type := sub_event_disconnected, clock := 0 }]
  | none => []

/-- Member function `CDataReader::GetConnectionCount`: count the entries whose state is set. -/
def GetConnectionCount (s : CDataReader) : Nat :=
  s.m_connection_map.foldl (fun count sub => if sub.2.state = true then count + 1 else count) 0

/-- Member function `CDataReader::ApplyPublication`. -/
def ApplyPublication (s : CDataReader) (publication_info_ : SPublicationInfo)
    (data_type_info_ : SDataTypeInformation) (pub_layer_states_ : SLayerStates) : Result Unit :=
  let s1 : CDataReader :=
    { s with m_layers :=
        { udp := { s.m_layers.udp with write_enabled := pub_layer_states_.udp.write_enabled }
          shm := { s.m_layers.shm with write_enabled := pub_layer_states_.shm.write_enabled }
          tcp := { s.m_layers.tcp with write_enabled := pub_layer_states_.tcp.write_enabled } } }
  match mapFind s1.m_connection_map publication_info_ with
  | none =>
    let connection : SConnection :=
      { data_type_info := data_type_info_, layer_states := pub_layer_states_, state := false }
    let s2 : CDataReader :=
      { s1 with m_connection_map := mapSet s1.m_connection_map publication_info_ connection }
    { ret := (), state := { s2 with m_connection_count := GetConnectionCount s2 }, calls := [] }
  | some connection =>
    let is_new_connection := !connection.state
    let is_updated_connection := connection.state
    let updated : SConnection :=
      { data_type_info := data_type_info_, layer_states := pub_layer_states_, state := true }
    let s2 : CDataReader :=
      { s1 with m_connection_map := mapSet s1.m_connection_map publication_info_ updated }
    let s3 : CDataReader := { s2 with m_connection_count := GetConnectionCount s2 }
    { ret := ()
      state := s3
      calls :=
        if is_new_connection = true then
          FireConnectEvent s3 publication_info_.entity_id data_type_info_
        else if is_updated_connection = true then
          FireUpdateEvent s3 publication_info_.entity_id data_type_info_
        else [] }

/-- Member function `CDataReader::RemovePublication`. -/
def RemovePublication (s : CDataReader) (publication_info_ : SPublicationInfo) : Result Unit :=
  let s1 : CDataReader :=
    { s with m_connection_map := mapErase s.m_connection_map publication_info_ }
  let last_connection_gone := s1.m_connection_map.isEmpty
  let s2 : CDataReader := { s1 with m_connection_count := GetConnectionCount s1 }
  { ret := ()
    state := s2
    calls := if last_connection_gone = true then FireDisconnectEvent s2 else [] }

/-- Member function `CDataReader::IsPublished`. -/
def IsPublished (s : CDataReader) : Bool := decide (s.m_connection_count > 0)

/-- Member function `CDataReader::GetPublisherCount`. -/
def GetPublisherCount (s : CDataReader) : Nat := s.m_connection_count

/-! ## Ingress pipeline -/

/-- The value held by a `long long` after an operation whose exact result is `x`: the
representative of `x` modulo `2 ^ 64` in the range from `-2 ^ 63` up to `2 ^ 63 - 1`. -/
def wrapInt64 (x : Int) : Int :=
  (x + 9223372036854775808) % 18446744073709551616 - 9223372036854775808

/-- The exact value `x` is in the range of a `long long`, so computing it does not
overflow. -/
def fitsInt64 (x : Int) : Prop :=
  -9223372036854775808 ≤ x ∧ x ≤ 9223372036854775807

instance (x : Int) : Decidable (fitsInt64 x) := by
  unfold fitsInt64; infer_instance

/-- Member function `CDataReader::CheckMessageClock`.  The difference of the two
`long long` clocks is the 64-bit value `wrapInt64 (current_clock_ - last_clock)`. -/
def CheckMessageClock (s : CDataReader) (tid_ : String) (current_clock_ : Int) : Result Bool :=
  match mapFind s.m_writer_counter_map tid_ with
  | none =>
    { ret := true
      state := { s with m_writer_counter_map := mapSet s.m_writer_counter_map tid_ current_clock_ } }
  | some last_clock =>
    let clock_difference := wrapInt64 (current_clock_ - last_clock)
    if clock_difference = 1 then
      { ret := true
        state := { s with m_writer_counter_map := mapSet s.m_writer_counter_map tid_ current_clock_ } }
    else if clock_difference = 0 then
      { ret := false, state := s }
    else if clock_difference > 1 then
      { ret := true
        state :=
          { s with
            m_message_drops := s.m_message_drops + clock_difference
            m_writer_counter_map := mapSet s.m_writer_counter_map tid_ current_clock_ }
        calls :=
          match eventCallback s sub_event_dropped with
          | some cb =>
            [Call.event cb s.m_attributes.topic_name
              { type := sub_event_dropped, clock := current_clock_ }]
          | none => [] }
    else if clock_difference < 0 then
      if s.drop_out_of_order_messages = true then
        { ret := false, state := s }
      else
        { ret := true
          state := s
          calls :=
            [Call.log_warning
              ("Subscriber: '" ++ s.m_attributes.topic_name ++ "'"
                ++ " received a message in the wrong order")] }
    else
      { ret := false, state := s }

/-- The `switch (layer_)` of `ApplySample`: the sample arrived on a layer that is
not enabled in the configuration. -/
def layerDisabled (attr : SAttributes) (layer_ : eTLayerType) : Bool :=
  match layer_ with
  | tl_ecal_udp => !attr.udp_enable
  | tl_ecal_shm => !attr.shm_enable
  | tl_ecal_tcp => !attr.tcp_enable
  | _ => false

/-- The block "store receive layer" of `ApplySample`:
`m_layers.udp.active |= layer_ == tl_ecal_udp;` and so on. -/
def storeReceiveLayer (s : CDataReader) (layer_ : eTLayerType) : CDataReader :=
  { s with m_layers :=
      { udp := { s.m_layers.udp with
                  active := s.m_layers.udp.active || decide (layer_ = tl_ecal_udp) }
        shm := { s.m_layers.shm with
                  active := s.m_layers.shm.active || decide (layer_ = tl_ecal_shm) }
        tcp := { s.m_layers.tcp with
                  active := s.m_layers.tcp.active || decide (layer_ = tl_ecal_tcp) } } }

/-- The blocks "store its hash" and "limit size of hash queue to the last 64
messages" of `ApplySample`. -/
def storeHash (s : CDataReader) (hash_ : Nat) : CDataReader :=
  { s with m_sample_hash_queue := popWhileOver 64 (s.m_sample_hash_queue ++ [hash_]) }

/-- The blocks "increase read clock", "reset timeout" and "store size" of
`ApplySample`. -/
def countSample (s : CDataReader) (size_ : Nat) : CDataReader :=
  { s with m_clock := s.m_clock + 1, m_receive_time := 0, m_topic_size := size_ }

/-- The blocks "execute callback" and "if not consumed by user receive call" of
`ApplySample`: hand the sample to the receive callback, or else put it into the
read buffer.  `m_connection_map[pub_info]` adds a value-initialised entry when
the publisher has none. -/
def deliverSample (s : CDataReader) (a : Sample) : Result Nat :=
  match s.m_receive_callback with
  | some cb =>
    let cb_data : SReceiveCallbackData :=
      { buf := a.payload_, size := a.size_, id := a.id_, time := a.time_, clock := a.clock_ }
    let topic_id : STopicId :=
      { topic_name := a.topic_info_.tname
        topic_id :=
          { host_name := a.topic_info_.hname
            entity_id := a.topic_info_.tid
            process_id := a.topic_info_.pid } }
    let pub_info : SPublicationInfo :=
      { entity_id := a.topic_info_.tid
        host_name := a.topic_info_.hname
        process_id := a.topic_info_.pid }
    match mapFind s.m_connection_map pub_info with
    | some connection =>
      { ret := a.size_
        state := s
        calls := [Call.receive cb topic_id connection.data_type_info cb_data] }
    | none =>
      let connection : SConnection := {}
      { ret := a.size_
        state := { s with m_connection_map := mapSet s.m_connection_map pub_info connection }
        calls := [Call.receive cb topic_id connection.data_type_info cb_data] }
  | none =>
    { ret := a.size_
      state :=
        { s with
          m_read_buf := a.payload_
          m_read_time := a.time_
          m_read_buf_received := true }
      calls := [] }

/-- Member function `CDataReader::ApplySample`. -/
def ApplySample (s : CDataReader) (a : Sample) : Result Nat :=
  if s.m_created = false then { ret := 0, state := s }
  else if layerDisabled s.m_attributes a.layer_ = true then { ret := 0, state := s }
  else
    let s1 := storeReceiveLayer s a.layer_
    if a.hash_ ∈ s1.m_sample_hash_queue then { ret := a.size_, state := s1 }
    else
      let s2 := storeHash s1 a.hash_
      if s2.m_id_set.isEmpty = false ∧ a.id_ ∉ s2.m_id_set then { ret := 0, state := s2 }
      else
        let r := CheckMessageClock s2 a.topic_info_.tid a.clock_
        if r.ret = false then { ret := 0, state := r.state, calls := r.calls }
        else
          let d := deliverSample (countSample r.state a.size_) a
          { ret := d.ret, state := d.state, calls := r.calls ++ d.calls }

/-- The state after a sequence of `ApplySample` calls. -/
def runSamples (s : CDataReader) (l : List Sample) : CDataReader :=
  l.foldl (fun st a => (ApplySample st a).state) s

/-- The sample passes every check of `ApplySample` (created, layer, hash, filter
id, message clock) and so reaches the delivery stage. -/
def delivered (s : CDataReader) (a : Sample) : Prop :=
  s.m_created = true ∧ layerDisabled s.m_attributes a.layer_ = false ∧
  a.hash_ ∉ s.m_sample_hash_queue ∧ (s.m_id_set.isEmpty = true ∨ a.id_ ∈ s.m_id_set) ∧
  (CheckMessageClock s a.topic_info_.tid a.clock_).ret = true

instance (s : CDataReader) (a : Sample) : Decidable (delivered s a) := by
  unfold delivered; infer_instance

/-- The send clocks of the samples of publisher `tid` that pass the message clock
check (and so are delivered), in arrival order, when the samples are applied one
after the other starting in state `s`. -/
def acceptedClocks (tid : String) : CDataReader → List Sample → List Int
  | _, [] => []
  | s, a :: rest =>
    if delivered s a ∧ a.topic_info_.tid = tid then
      a.clock_ :: acceptedClocks tid (ApplySample s a).state rest
    else acceptedClocks tid (ApplySample s a).state rest

/-- The call is an invocation of the receive callback. -/
def Call.isReceive : Call → Bool
  | Call.receive _ _ _ _ => true
  | _ => false

/-- The call is an invocation of an event callback for an event of kind `type_`. -/
def Call.isEventOf (type_ : eCAL_Subscriber_Event) : Call → Bool
  | Call.event _ _ data => decide (data.type = type_)
  | _ => false

/-- The call is an invocation of an event callback of any kind. -/
def Call.isEventCall : Call → Bool
  | Call.event _ _ _ => true
  | _ => false

/-! ## Concrete readers, publishers and samples used in the examples -/

/-- A reader for topic "T" right after construction, all layers enabled. -/
def exampleReader (drop_out_of_order : Bool) : CDataReader :=
  CDataReader.create { name := "Foo", encoding := "proto", descriptor := "<bytes>" }
    { topic_name := "T" } drop_out_of_order

/-- A sample of publisher "p1" (host "h", process 1) arriving on the udp layer. -/
def exampleSample (clock : Int) (hash : Nat) : Sample :=
  { topic_info_ := { hname := "h", pid := 1, tname := "T", tid := "p1" }
    payload_ := [hash]
    id_ := 0
    clock_ := clock
    time_ := 1000 + clock
    hash_ := hash
    layer_ := tl_ecal_udp }

/-- Publication key of publisher "p1". -/
def examplePub1 : SPublicationInfo := { host_name := "h", entity_id := "p1", process_id := 1 }

/-- Publication key of publisher "p2". -/
def examplePub2 : SPublicationInfo := { host_name := "h", entity_id := "p2", process_id := 1 }

/-- Data type information the example publishers announce. -/
def exampleTypeInfo : SDataTypeInformation :=
  { name := "Foo", encoding := "proto", descriptor := "<bytes>" }

/-- Reader with a disconnected callback (identifier 7) in which publisher "p1" is
active (announced twice) and publisher "p2" is known but not yet active
(announced once). -/
def exampleOneActiveOnePending : CDataReader :=
  let s0 := (AddEventCallback (exampleReader true) sub_event_disconnected (some 7)).state
  let s1 := (ApplyPublication s0 examplePub1 exampleTypeInfo {}).state
  let s2 := (ApplyPublication s1 examplePub1 exampleTypeInfo {}).state
  (ApplyPublication s2 examplePub2 exampleTypeInfo {}).state

/-- Reader with a disconnected callback (identifier 7) whose only publisher "p1" is
active. -/
def exampleOneActive : CDataReader :=
  let s0 := (AddEventCallback (exampleReader true) sub_event_disconnected (some 7)).state
  let s1 := (ApplyPublication s0 examplePub1 exampleTypeInfo {}).state
  (ApplyPublication s1 examplePub1 exampleTypeInfo {}).state

/-- Reader with a receive callback (identifier 1) and a connected callback
(identifier 2) that has received one sample of publisher "p1" before any
publication of "p1" was applied. -/
def exampleSampleBeforePublication : CDataReader :=
  let s0 := (AddReceiveCallback (exampleReader true) (some 1)).state
  let s1 := (AddEventCallback s0 sub_event_connected (some 2)).state
  (ApplySample s1 (exampleSample 1 11)).state

/-- Sixty-five samples of publisher "p1" with send clocks and payload hashes 1 to 65. -/
def example65Samples : List Sample :=
  (List.range 65).map (fun i => exampleSample (Int.ofNat (i + 1)) (i + 1))

/-! ## Sequences of calls -/

/-- One call of a member function of the reader, with its arguments. -/
inductive Op where
  | applySample (a : Sample)
  | applyPublication (publication_info_ : SPublicationInfo)
      (data_type_info_ : SDataTypeInformation) (pub_layer_states_ : SLayerStates)
  | removePublication (publication_info_ : SPublicationInfo)
  | addReceiveCallback (callback_ : Option CallbackId)
  | remReceiveCallback
  | addEventCallback (type_ : eCAL_Subscriber_Event) (callback_ : Option CallbackId)
  | remEventCallback (type_ : eCAL_Subscriber_Event)
  | setFilterIDs (filter_ids_ : List Int)
  | setAttribute (attr_name_ attr_value_ : String)
  | clearAttribute (attr_name_ : String)
  | read (buf_ : List Nat) (time_ : Option Int) (rcv_timeout_ms_ : Int)
  | stop
  deriving DecidableEq, Repr

/-- The state after one call and the callbacks it invoked.  A `Read` that would wait
for ever changes nothing. -/
def step (s : CDataReader) : Op → CDataReader × List Call
  | Op.applySample a => ((ApplySample s a).state, (ApplySample s a).calls)
  | Op.applyPublication k i l =>
    ((ApplyPublication s k i l).state, (ApplyPublication s k i l).calls)
  | Op.removePublication k => ((RemovePublication s k).state, (RemovePublication s k).calls)
  | Op.addReceiveCallback cb => ((AddReceiveCallback s cb).state, (AddReceiveCallback s cb).calls)
  | Op.remReceiveCallback => ((RemReceiveCallback s).state, (RemReceiveCallback s).calls)
  | Op.addEventCallback t cb =>
    ((AddEventCallback s t cb).state, (AddEventCallback s t cb).calls)
  | Op.remEventCallback t => ((RemEventCallback s t).state, (RemEventCallback s t).calls)
  | Op.setFilterIDs ids => ((SetFilterIDs s ids).state, (SetFilterIDs s ids).calls)
  | Op.setAttribute n v => ((SetAttribute s n v).state, (SetAttribute s n v).calls)
  | Op.clearAttribute n => ((ClearAttribute s n).state, (ClearAttribute s n).calls)
  | Op.read buf_ time_ t =>
    match Read s buf_ time_ t with
    | some r => (r.state, [])
    | none => (s, [])
  | Op.stop => ((Stop s).state, (Stop s).calls)

/-- The state after a sequence of calls and all callbacks invoked, in order. -/
def runOps : CDataReader → List Op → CDataReader × List Call
  | s, [] => (s, [])
  | s, op :: rest => ((runOps (step s op).1 rest).1, (step s op).2 ++ (runOps (step s op).1 rest).2)

/-- The call is an `ApplyPublication` or a `RemovePublication`. -/
def Op.isPublicationOp : Op → Bool
  | Op.applyPublication _ _ _ => true
  | Op.removePublication _ => true
  | _ => false

/-- Number of connected events that the `ApplyPublication` calls for key `k` in the
sequence make, the calls being applied one after the other starting in state `s`. -/
def connectedCount (k : SPublicationInfo) : CDataReader → List Op → Nat
  | _, [] => 0
  | s, op :: rest =>
    (match op with
      | Op.applyPublication k1 _ _ =>
        if k1 = k then ((step s op).2.filter (Call.isEventOf sub_event_connected)).length else 0
      | _ => 0)
    + connectedCount k (step s op).1 rest

/-- The entry of key `k` in the connection table is active (state set). -/
def isActive (s : CDataReader) (k : SPublicationInfo) : Bool :=
  match mapFind s.m_connection_map k with
  | some connection => connection.state
  | none => false

/-- Reader with a connected callback (identifier 2) and a disconnected callback
(identifier 7) right after construction. -/
def exampleReaderWithEvents : CDataReader :=
  (AddEventCallback (AddEventCallback (exampleReader true) sub_event_connected (some 2)).state
    sub_event_disconnected (some 7)).state

/-- Reader under the keep policy whose stored clock for publisher "p1" is 5. -/
def exampleKeepPolicyClock5 : CDataReader :=
  (ApplySample (exampleReader false) (exampleSample 5 50)).state

/-- Reader under the drop policy whose stored clock for publisher "p1" is 5. -/
def exampleDropPolicyClock5 : CDataReader :=
  (ApplySample (exampleReader true) (exampleSample 5 50)).state

/-- Reader that has delivered one sample with payload hash 42 and then got the filter
id set 5 installed. -/
def exampleFilterAfterHash42 : CDataReader :=
  (SetFilterIDs (ApplySample (exampleReader true) (exampleSample 1 42)).state [5]).state

/-- Calls in which publishers "p1" and "p2" are announced twice each, "p1" is removed
and then announced twice again. -/
def exampleReconnectOps : List Op :=
  [Op.applyPublication examplePub1 exampleTypeInfo {},
   Op.applyPublication examplePub1 exampleTypeInfo {},
   Op.applyPublication examplePub2 exampleTypeInfo {},
   Op.applyPublication examplePub2 exampleTypeInfo {},
   Op.removePublication examplePub1,
   Op.applyPublication examplePub1 exampleTypeInfo {},
   Op.applyPublication examplePub1 exampleTypeInfo {}]

/-! ## Registration values, counters and branches -/

/-- The `dclock` value of the registration sample:
`ecal_reg_sample_topic.dclock = m_clock` in `GetRegistrationSample`. -/
def dclock (s : CDataReader) : Int := s.m_clock

/-- Number of samples of the sequence that are delivered when the samples are applied one
after the other starting in state `s`. -/
def deliveredCount : CDataReader → List Sample → Nat
  | _, [] => 0
  | s, a :: rest =>
    (if delivered s a then 1 else 0) + deliveredCount (ApplySample s a).state rest

/-- The active flag of one of the three layers (false for any other layer value). -/
def layerActive (s : CDataReader) : eTLayerType → Bool
  | tl_ecal_udp => s.m_layers.udp.active
  | tl_ecal_shm => s.m_layers.shm.active
  | tl_ecal_tcp => s.m_layers.tcp.active
  | _ => false

/-- The return statements of `CheckMessageClock`, in source order; the last one is the
`return false` after the comment "should never be reached". -/
inductive ClockBranch where
  | initial_entry
  | next_message
  | duplicate
  | message_drop
  | wrong_order
  | never_reached
  deriving DecidableEq, Repr

/-- The return statement that `CheckMessageClock` reaches: the control flow of the
function without its effects, on the same 64-bit clock difference. -/
def CheckMessageClockBranch (s : CDataReader) (tid_ : String) (current_clock_ : Int) :
    ClockBranch :=
  match mapFind s.m_writer_counter_map tid_ with
  | none => ClockBranch.initial_entry
  | some last_clock =>
    let clock_difference := wrapInt64 (current_clock_ - last_clock)
    if clock_difference = 1 then ClockBranch.next_message
    else if clock_difference = 0 then ClockBranch.duplicate
    else if clock_difference > 1 then ClockBranch.message_drop
    else if clock_difference < 0 then ClockBranch.wrong_order
    else ClockBranch.never_reached

/-- Reader with a dropped callback (identifier 9) and a receive callback (identifier 1)
whose stored clock for publisher "p1" is 3. -/
def exampleGapReader : CDataReader :=
  (ApplySample
    (AddReceiveCallback (AddEventCallback (exampleReader true) sub_event_dropped (some 9)).state
      (some 1)).state
    (exampleSample 3 30)).state

/-- Fresh reader with the filter id set 5 installed. -/
def exampleFilterReader : CDataReader :=
  (SetFilterIDs (exampleReader true) [5]).state

/-- The call is an `ApplySample` whose sample arrives on layer `l`. -/
def Op.arrivesOn (l : eTLayerType) : Op → Bool
  | Op.applySample a => decide (a.layer_ = l)
  | _ => false

/-- The value `CheckMessageClock` returns at each of its return statements;
`drop_out_of_order` is the out-of-order policy read in the wrong-order branch. -/
def ClockBranch.verdict (drop_out_of_order : Bool) : ClockBranch → Bool
  | ClockBranch.initial_entry => true
  | ClockBranch.next_message => true
  | ClockBranch.duplicate => false
  | ClockBranch.message_drop => true
  | ClockBranch.wrong_order => !drop_out_of_order
  | ClockBranch.never_reached => false

/-- Reader with receive callback 1 right after construction: no publisher is known. -/
def exampleCallbackReader : CDataReader :=
  (AddReceiveCallback (exampleReader true) (some 1)).state

/-- The largest `long long` value (`LLONG_MAX`). -/
def LLONG_MAX : Int := 9223372036854775807

/-- The smallest `long long` value (`LLONG_MIN`). -/
def LLONG_MIN : Int := -9223372036854775808

/-- A sample of publisher "p1" arriving on the udp layer with the given send clock and
payload hash and send time 1000. -/
def exampleSampleAt (clock : Int) (hash : Nat) : Sample :=
  { exampleSample 0 hash with clock_ := clock }

/-- Reader with dropped callback 9 and receive callback 1, under the given out-of-order
policy, whose stored clock for publisher "p1" is `clock` (one sample delivered). -/
def exampleStoredClock (drop_out_of_order : Bool) (clock : Int) : CDataReader :=
  (ApplySample
    (AddReceiveCallback
      (AddEventCallback (exampleReader drop_out_of_order) sub_event_dropped (some 9)).state
      (some 1)).state
    (exampleSampleAt clock 50)).state

/-! ## Lemmas and theorems -/

theorem mapFind_mapSet_same {κ ν : Type} [DecidableEq κ] (m : List (κ × ν)) (k : κ) (v : ν) :
    mapFind (mapSet m k v) k = some v := by
  induction m with
  | nil => simp [mapSet, mapFind]
  | cons p rest ih =>
    obtain ⟨k1, v1⟩ := p
    by_cases h : k1 = k
    · simp [mapSet, mapFind, h]
    · simp [mapSet, mapFind, h, ih]

theorem mapFind_mapSet_ne {κ ν : Type} [DecidableEq κ] (m : List (κ × ν)) (k k2 : κ) (v : ν)
    (hne : k ≠ k2) : mapFind (mapSet m k v) k2 = mapFind m k2 := by
  induction m with
  | nil => simp [mapSet, mapFind, hne]
  | cons p rest ih =>
    obtain ⟨k1, v1⟩ := p
    by_cases h : k1 = k
    · subst h; simp [mapSet, mapFind, hne]
    · simp [mapSet, mapFind, h, ih]

theorem mapErase_length_le {κ ν : Type} [DecidableEq κ] (m : List (κ × ν)) (k : κ) :
    (mapErase m k).length ≤ m.length := by
  induction m with
  | nil => simp [mapErase]
  | cons p rest ih =>
    obtain ⟨k1, v1⟩ := p
    by_cases h : k1 = k
    · simp only [mapErase, h, if_true, List.length_cons]; omega
    · simp only [mapErase, h, if_false, List.length_cons]; omega

/-- Erasing a key that has an entry shrinks the table. -/
theorem mapErase_length_lt {κ ν : Type} [DecidableEq κ] (m : List (κ × ν)) (k : κ)
    (hk : mapFind m k ≠ none) : (mapErase m k).length < m.length := by
  induction m with
  | nil => simp [mapFind] at hk
  | cons p rest ih =>
    obtain ⟨k1, v1⟩ := p
    by_cases h : k1 = k
    · have := mapErase_length_le rest k
      simp only [mapErase, h, if_true, List.length_cons]; omega
    · have hk2 : mapFind rest k ≠ none := by simpa [mapFind, h] using hk
      have := ih hk2
      simp only [mapErase, h, if_false, List.length_cons]; omega

theorem mapFind_mapErase_same {κ ν : Type} [DecidableEq κ] (m : List (κ × ν)) (k : κ) :
    mapFind (mapErase m k) k = none := by
  induction m with
  | nil => simp [mapErase, mapFind]
  | cons p rest ih =>
    obtain ⟨k1, v1⟩ := p
    by_cases h : k1 = k
    · simp [mapErase, h, ih]
    · simp [mapErase, mapFind, h, ih]

/-- Fields of the state the clock check never writes. -/
theorem CheckMessageClock_frame (s : CDataReader) (tid : String) (c : Int) :
    (CheckMessageClock s tid c).state =
      { s with
        m_writer_counter_map := (CheckMessageClock s tid c).state.m_writer_counter_map
        m_message_drops := (CheckMessageClock s tid c).state.m_message_drops } := by
  unfold CheckMessageClock
  split
  · rfl
  · dsimp only
    split_ifs <;> rfl

theorem CheckMessageClock_reject (s : CDataReader) (tid : String) (c : Int)
    (h : (CheckMessageClock s tid c).ret = false) :
    (CheckMessageClock s tid c).state = s ∧ (CheckMessageClock s tid c).calls = [] := by
  unfold CheckMessageClock at h ⊢
  split at h
  · simp at h
  · rename_i last hl
    simp only [hl]
    dsimp only at h ⊢
    split_ifs at h ⊢ <;> simp_all

/-- The verdict and the map and counter updates of the clock check depend only on the
clock map, the drop counter and the out-of-order policy. -/
theorem CheckMessageClock_congr (s t : CDataReader) (tid : String) (c : Int)
    (hm : t.m_writer_counter_map = s.m_writer_counter_map)
    (hd : t.drop_out_of_order_messages = s.drop_out_of_order_messages)
    (hc : t.m_message_drops = s.m_message_drops) :
    (CheckMessageClock t tid c).ret = (CheckMessageClock s tid c).ret ∧
    (CheckMessageClock t tid c).state.m_writer_counter_map
      = (CheckMessageClock s tid c).state.m_writer_counter_map ∧
    (CheckMessageClock t tid c).state.m_message_drops
      = (CheckMessageClock s tid c).state.m_message_drops := by
  unfold CheckMessageClock
  rw [hm]
  cases hf : mapFind s.m_writer_counter_map tid with
  | none => simp [hm, hc]
  | some last =>
    dsimp only
    split_ifs <;> simp_all

theorem CheckMessageClock_map_other (s : CDataReader) (tid tid2 : String) (c : Int)
    (hne : tid ≠ tid2) :
    mapFind (CheckMessageClock s tid c).state.m_writer_counter_map tid2
      = mapFind s.m_writer_counter_map tid2 := by
  unfold CheckMessageClock
  cases hf : mapFind s.m_writer_counter_map tid with
  | none => simp [mapFind_mapSet_ne _ _ _ _ hne]
  | some last =>
    dsimp only
    split_ifs <;> simp [mapFind_mapSet_ne _ _ _ _ hne]

/-- A difference that fits the 64-bit range is computed exactly. -/
theorem wrapInt64_of_fits (x : Int) (h : fitsInt64 x) : wrapInt64 x = x := by
  unfold fitsInt64 at h
  unfold wrapInt64
  omega

/-- The 64-bit difference of two clocks of one window of width `2 ^ 63` is exact. -/
theorem wrapInt64_of_window (lo c last : Int)
    (hc : lo ≤ c ∧ c < lo + 9223372036854775808)
    (hlast : lo ≤ last ∧ last < lo + 9223372036854775808) :
    wrapInt64 (c - last) = c - last := by
  apply wrapInt64_of_fits
  unfold fitsInt64
  omega

/-- Under the drop policy an accepted clock is stored and its 64-bit difference to the
stored one is positive. -/
theorem CheckMessageClock_accept_drop (s : CDataReader) (tid : String) (c : Int)
    (hd : s.drop_out_of_order_messages = true)
    (h : (CheckMessageClock s tid c).ret = true) :
    mapFind (CheckMessageClock s tid c).state.m_writer_counter_map tid = some c ∧
    ∀ last, mapFind s.m_writer_counter_map tid = some last → 0 < wrapInt64 (c - last) := by
  unfold CheckMessageClock at h ⊢
  cases hf : mapFind s.m_writer_counter_map tid with
  | none => simp [mapFind_mapSet_same]
  | some last =>
    rw [hf] at h
    dsimp only at h ⊢
    split_ifs at h ⊢ with h1 h0 hg hn
    · simp [mapFind_mapSet_same]; omega
    · simp [mapFind_mapSet_same]; omega

theorem ApplySample_of_delivered (s : CDataReader) (a : Sample) (h : delivered s a) :
    ApplySample s a =
      { ret := a.size_
        state := (deliverSample (countSample (CheckMessageClock
          (storeHash (storeReceiveLayer s a.layer_) a.hash_) a.topic_info_.tid a.clock_).state
            a.size_) a).state
        calls := (CheckMessageClock
          (storeHash (storeReceiveLayer s a.layer_) a.hash_) a.topic_info_.tid a.clock_).calls
          ++ (deliverSample (countSample (CheckMessageClock
          (storeHash (storeReceiveLayer s a.layer_) a.hash_) a.topic_info_.tid a.clock_).state
            a.size_) a).calls } := by
  obtain ⟨hc, hl, hh, hf, hr⟩ := h
  have hr2 : (CheckMessageClock (storeHash (storeReceiveLayer s a.layer_) a.hash_)
      a.topic_info_.tid a.clock_).ret = true :=
    (CheckMessageClock_congr s (storeHash (storeReceiveLayer s a.layer_) a.hash_) _ _ rfl rfl rfl).1.trans hr
  have hret : ∀ t : CDataReader, (deliverSample t a).ret = a.size_ := by
    intro t
    unfold deliverSample
    split
    · dsimp only
      split <;> rfl
    · rfl
  have hh2 : a.hash_ ∉ (storeReceiveLayer s a.layer_).m_sample_hash_queue := hh
  have hf2 : ¬ ((storeHash (storeReceiveLayer s a.layer_) a.hash_).m_id_set.isEmpty = false ∧
      a.id_ ∉ (storeHash (storeReceiveLayer s a.layer_) a.hash_).m_id_set) := by
    show ¬ (s.m_id_set.isEmpty = false ∧ a.id_ ∉ s.m_id_set)
    rcases hf with hf | hf
    · simp [hf]
    · simp [hf]
  unfold ApplySample
  simp only [hc, hl, hh2, hf2, hr2, hret]
  simp

theorem ApplySample_of_not_delivered (s : CDataReader) (a : Sample) (h : ¬ delivered s a) :
    (ApplySample s a).calls = [] ∧
    ((ApplySample s a).state = s ∨ (ApplySample s a).state = storeReceiveLayer s a.layer_ ∨
      (ApplySample s a).state = storeHash (storeReceiveLayer s a.layer_) a.hash_) := by
  unfold ApplySample
  by_cases hc : s.m_created = false
  · simp [hc]
  by_cases hl : layerDisabled s.m_attributes a.layer_ = true
  · simp [hc, hl]
  by_cases hh : a.hash_ ∈ (storeReceiveLayer s a.layer_).m_sample_hash_queue
  · simp [hc, hl, hh]
  by_cases hf : ((storeHash (storeReceiveLayer s a.layer_) a.hash_).m_id_set.isEmpty = false ∧
      a.id_ ∉ (storeHash (storeReceiveLayer s a.layer_) a.hash_).m_id_set)
  · simp only [hc, hl, hh, hf]
    simp
  have hr : (CheckMessageClock (storeHash (storeReceiveLayer s a.layer_) a.hash_)
      a.topic_info_.tid a.clock_).ret = false := by
    rw [(CheckMessageClock_congr s (storeHash (storeReceiveLayer s a.layer_) a.hash_) _ _ rfl rfl rfl).1]
    by_contra hr
    apply h
    refine ⟨by simpa using hc, by simpa using hl, hh, ?_, by simpa using hr⟩
    by_contra hcon
    apply hf
    push_neg at hcon
    exact ⟨by simpa using hcon.1, hcon.2⟩
  have hrej := CheckMessageClock_reject _ _ _ hr
  simp only [hc, hl, hh, hf, hr, hrej.1, hrej.2]
  simp


theorem deliverSample_frame (t : CDataReader) (a : Sample) :
    (deliverSample t a).state =
      { t with
        m_connection_map := (deliverSample t a).state.m_connection_map
        m_read_buf := (deliverSample t a).state.m_read_buf
        m_read_time := (deliverSample t a).state.m_read_time
        m_read_buf_received := (deliverSample t a).state.m_read_buf_received } := by
  unfold deliverSample
  split
  · dsimp only
    split <;> rfl
  · rfl

/-- The clock map after `ApplySample`: the clock check ran on it exactly when the
sample was delivered. -/
theorem ApplySample_writer_map (s : CDataReader) (a : Sample) :
    (ApplySample s a).state.m_writer_counter_map =
      if delivered s a then
        (CheckMessageClock s a.topic_info_.tid a.clock_).state.m_writer_counter_map
      else s.m_writer_counter_map := by
  by_cases h : delivered s a
  · rw [if_pos h, ApplySample_of_delivered s a h]
    dsimp only
    rw [deliverSample_frame]
    exact (CheckMessageClock_congr s (storeHash (storeReceiveLayer s a.layer_) a.hash_)
      _ _ rfl rfl rfl).2.1
  · rw [if_neg h]
    rcases (ApplySample_of_not_delivered s a h).2 with h1 | h1 | h1 <;> rw [h1] <;> rfl

/-- Frame of `ApplySample`: it never writes the configuration, the created flag, the filter set
or the callback registry. -/
theorem ApplySample_keeps (s : CDataReader) (a : Sample) :
    (ApplySample s a).state.drop_out_of_order_messages = s.drop_out_of_order_messages ∧
    (ApplySample s a).state.m_created = s.m_created ∧
    (ApplySample s a).state.m_attributes = s.m_attributes ∧
    (ApplySample s a).state.m_id_set = s.m_id_set ∧
    (ApplySample s a).state.m_receive_callback = s.m_receive_callback ∧
    (ApplySample s a).state.m_event_callback_map = s.m_event_callback_map := by
  by_cases h : delivered s a
  · rw [ApplySample_of_delivered s a h]
    dsimp only
    rw [deliverSample_frame]
    dsimp only [countSample]
    rw [CheckMessageClock_frame]
    simp [storeHash, storeReceiveLayer]
  · rcases (ApplySample_of_not_delivered s a h).2 with h1 | h1 | h1 <;> rw [h1] <;>
      simp [storeHash, storeReceiveLayer]

/-- Under the drop policy, when the clocks of the samples and the stored clock of the
publisher lie in one window of width `2 ^ 63`, the accepted clocks of the publisher
increase strictly and exceed the stored clock. -/
theorem acceptedClocks_increasing (tid : String) (lo : Int) (l : List Sample) :
    ∀ s : CDataReader, s.drop_out_of_order_messages = true →
      (∀ a ∈ l, lo ≤ a.clock_ ∧ a.clock_ < lo + 9223372036854775808) →
      (∀ last, mapFind s.m_writer_counter_map tid = some last →
        lo ≤ last ∧ last < lo + 9223372036854775808) →
      (acceptedClocks tid s l).Pairwise (· < ·) ∧
      ∀ c ∈ acceptedClocks tid s l, ∀ last,
        mapFind s.m_writer_counter_map tid = some last → last < c := by
  induction l with
  | nil => intro s _ _ _; simp [acceptedClocks]
  | cons a rest ih =>
    intro s hd hl hst
    have hd2 : (ApplySample s a).state.drop_out_of_order_messages = true :=
      (ApplySample_keeps s a).1.trans hd
    have ha := hl a (List.mem_cons_self _ _)
    have hrest : ∀ b ∈ rest, lo ≤ b.clock_ ∧ b.clock_ < lo + 9223372036854775808 :=
      fun b hb => hl b (List.mem_cons_of_mem _ hb)
    have hmap := ApplySample_writer_map s a
    by_cases hdel : delivered s a
    · rw [if_pos hdel] at hmap
      by_cases ht : a.topic_info_.tid = tid
      · have hacc := CheckMessageClock_accept_drop s a.topic_info_.tid a.clock_ hd hdel.2.2.2.2
        rw [ht] at hacc
        have hstored : mapFind (ApplySample s a).state.m_writer_counter_map tid
            = some a.clock_ := by rw [hmap, ht]; exact hacc.1
        have hexceeds : ∀ last, mapFind s.m_writer_counter_map tid = some last →
            last < a.clock_ := by
          intro last hlast
          have hpos := hacc.2 last hlast
          rw [wrapInt64_of_window lo a.clock_ last ha (hst last hlast)] at hpos
          omega
        have hst2 : ∀ last, mapFind (ApplySample s a).state.m_writer_counter_map tid
            = some last → lo ≤ last ∧ last < lo + 9223372036854775808 := by
          intro last hlast
          rw [hstored] at hlast
          cases hlast
          exact ha
        obtain ⟨ihp, ihb⟩ := ih (ApplySample s a).state hd2 hrest hst2
        have hlater : ∀ c ∈ acceptedClocks tid (ApplySample s a).state rest, a.clock_ < c :=
          fun c hc => ihb c hc a.clock_ hstored
        simp only [acceptedClocks, hdel, ht, and_self, if_true]
        refine ⟨List.pairwise_cons.2 ⟨hlater, ihp⟩, ?_⟩
        intro c hc last hlast
        rcases List.mem_cons.1 hc with rfl | hc
        · exact hexceeds last hlast
        · exact lt_trans (hexceeds last hlast) (hlater c hc)
      · have hsame : mapFind (ApplySample s a).state.m_writer_counter_map tid
            = mapFind s.m_writer_counter_map tid := by
          rw [hmap]; exact CheckMessageClock_map_other s _ _ _ ht
        obtain ⟨ihp, ihb⟩ := ih (ApplySample s a).state hd2 hrest
          (fun last hlast => hst last (hsame.symm.trans hlast))
        simp only [acceptedClocks, ht, and_false, if_false]
        exact ⟨ihp, fun c hc last hlast => ihb c hc last (hsame.trans hlast)⟩
    · rw [if_neg hdel] at hmap
      obtain ⟨ihp, ihb⟩ := ih (ApplySample s a).state hd2 hrest
        (fun last hlast => hst last (by rw [← hmap]; exact hlast))
      simp only [acceptedClocks, hdel, false_and, if_false]
      exact ⟨ihp, fun c hc last hlast => ihb c hc last (by rw [hmap]; exact hlast)⟩

/-- A sample is delivered exactly when `ApplySample` increases the read clock by one. -/
theorem delivered_iff_read_clock_incremented (s : CDataReader) (a : Sample) :
    delivered s a ↔ (ApplySample s a).state.m_clock = s.m_clock + 1 := by
  constructor
  · intro hdel
    rw [ApplySample_of_delivered s a hdel]
    dsimp only
    rw [deliverSample_frame]
    dsimp only [countSample]
    rw [CheckMessageClock_frame]
    rfl
  · intro hclock
    by_contra hdel
    have hsame : (ApplySample s a).state.m_clock = s.m_clock := by
      rcases (ApplySample_of_not_delivered s a hdel).2 with h1 | h1 | h1 <;> rw [h1] <;> rfl
    rw [hsame] at hclock
    omega

/-- C1: on the code the drop counter grows by the whole clock difference D of a gap,
not by D - 1: a reader whose counter is 0 accepts clock 3 and then clock 7 of one
publisher (both delivered, difference 4) and ends with `m_message_drops = 4`, where
the specification says 3. -/
theorem C1_message_drops_after_clock_3_then_7 :
    (exampleReader true).m_message_drops = 0 ∧
    delivered (exampleReader true) (exampleSample 3 1) ∧
    delivered (runSamples (exampleReader true) [exampleSample 3 1]) (exampleSample 7 2) ∧
    (runSamples (exampleReader true) [exampleSample 3 1, exampleSample 7 2]).m_message_drops = 4 ∧
    (runSamples (exampleReader true) [exampleSample 3 1, exampleSample 7 2]).m_message_drops
      ≠ (7 - 3 - 1 : Int) := by
  decide

/-- C2 (as stated, refuted): with publisher "p1" active and "p2" known but not active,
removing "p1" takes the number of active publishers from 1 to 0, yet no disconnected
event is fired although a disconnected callback is installed. -/
theorem C2_counterexample_active_count_to_zero_without_event :
    eventCallback exampleOneActiveOnePending sub_event_disconnected = some 7 ∧
    GetConnectionCount exampleOneActiveOnePending = 1 ∧
    GetConnectionCount (RemovePublication exampleOneActiveOnePending examplePub1).state = 0 ∧
    ¬ ((RemovePublication exampleOneActiveOnePending examplePub1).calls.any
          (Call.isEventOf sub_event_disconnected) = true ↔
        (0 < GetConnectionCount exampleOneActiveOnePending ∧
          GetConnectionCount (RemovePublication exampleOneActiveOnePending examplePub1).state
            = 0)) := by
  decide

/-- C2 (amended): when a disconnected callback is installed and the removed key has an
entry in the connection table, `RemovePublication` erases that entry and invokes the
callback, once, if and only if the table is empty after the erase, whatever the state
flags of the entries; so it is not invoked whenever an active publisher remains (in
particular when the active count goes from 2 to 1). -/
theorem C2_RemovePublication_fires_iff_table_empty (s : CDataReader)
    (publication_info_ : SPublicationInfo) (cb : CallbackId)
    (hcb : eventCallback s sub_event_disconnected = some cb)
    (hkey : mapFind s.m_connection_map publication_info_ ≠ none) :
    ((RemovePublication s publication_info_).calls
        = [Call.event cb s.m_attributes.topic_name { type := sub_event_disconnected, clock := 0 }]
      ↔ (RemovePublication s publication_info_).state.m_connection_map = []) ∧
    ((RemovePublication s publication_info_).calls = []
      ↔ (RemovePublication s publication_info_).state.m_connection_map ≠ []) ∧
    (0 < GetConnectionCount (RemovePublication s publication_info_).state →
      (RemovePublication s publication_info_).calls = []) ∧
    mapFind (RemovePublication s publication_info_).state.m_connection_map publication_info_
      = none ∧
    (RemovePublication s publication_info_).state.m_connection_map.length
      < s.m_connection_map.length := by
  have hfire : FireDisconnectEvent s
      = [Call.event cb s.m_attributes.topic_name { type := sub_event_disconnected, clock := 0 }] := by
    simp [FireDisconnectEvent, hcb]
  have hcalls : (RemovePublication s publication_info_).calls
      = if (mapErase s.m_connection_map publication_info_).isEmpty = true
          then FireDisconnectEvent s else [] := rfl
  have hmap : (RemovePublication s publication_info_).state.m_connection_map
      = mapErase s.m_connection_map publication_info_ := rfl
  have hcount : GetConnectionCount (RemovePublication s publication_info_).state
      = (mapErase s.m_connection_map publication_info_).foldl
          (fun count sub => if sub.2.state = true then count + 1 else count) 0 := rfl
  refine ⟨?_, ?_, ?_, mapFind_mapErase_same _ _, mapErase_length_lt _ _ hkey⟩
  · rw [hcalls, hmap, hfire]
    cases mapErase s.m_connection_map publication_info_ <;> simp
  · rw [hcalls, hmap, hfire]
    cases mapErase s.m_connection_map publication_info_ <;> simp
  · rw [hcalls, hcount, hfire]
    cases mapErase s.m_connection_map publication_info_ <;> simp

/-- Witness of C2 (amended): removing the only, active publisher "p1" empties the table
and invokes the disconnected callback 7 once. -/
theorem C2_RemovePublication_fires_iff_table_empty_witness :
    (RemovePublication exampleOneActive examplePub1).calls
      = [Call.event 7 "T" { type := sub_event_disconnected, clock := 0 }] :=
  ((C2_RemovePublication_fires_iff_table_empty exampleOneActive examplePub1 7
    (by decide) (by decide)).1).2 (by decide)

/-- C3: on the code the first `ApplyPublication` for a publisher can activate it: after a
sample of publisher "p1" was handed to the receive callback, the connection table holds a
value-initialised entry for "p1" (state false), and the first `ApplyPublication` for "p1"
finds it, sets state true and fires the connected event. -/
theorem C3_first_ApplyPublication_after_sample_activates :
    mapFind (AddEventCallback (AddReceiveCallback (exampleReader true) (some 1)).state
      sub_event_connected (some 2)).state.m_connection_map examplePub1 = none ∧
    mapFind exampleSampleBeforePublication.m_connection_map examplePub1
      = some { data_type_info := {}, layer_states := {}, state := false } ∧
    mapFind (ApplyPublication exampleSampleBeforePublication examplePub1 exampleTypeInfo
      {}).state.m_connection_map examplePub1
      = some { data_type_info := exampleTypeInfo, layer_states := {}, state := true } ∧
    (ApplyPublication exampleSampleBeforePublication examplePub1 exampleTypeInfo {}).calls
      = [Call.event 2 "T"
          { type := sub_event_connected, clock := 0, tid := "p1", tdatatype := exampleTypeInfo }] := by
  decide

/-- C4 (as stated, refuted): under the drop policy the publisher "p1" sends clock
`LLONG_MAX` and then clock -2: the 64-bit difference wraps to a positive value, the second
sample is accepted as a gap, and the accepted clocks `LLONG_MAX`, -2 do not increase. -/
theorem C4_counterexample_wrapped_difference_accepts_smaller_clock :
    (exampleReader true).drop_out_of_order_messages = true ∧
    acceptedClocks "p1" (exampleReader true)
        [exampleSampleAt LLONG_MAX 1, exampleSampleAt (-2) 2] = [LLONG_MAX, -2] ∧
    ¬ (acceptedClocks "p1" (exampleReader true)
        [exampleSampleAt LLONG_MAX 1, exampleSampleAt (-2) 2]).Pairwise
          (fun c1 c2 => c1 < c2) := by
  decide

/-- C4 (amended): with the drop-out-of-order policy enabled, for every start state, every
publisher id and every sequence of ingress samples such that the send clocks of the
samples and the stored clock of the publisher lie in one window of width `2 ^ 63` (for
instance are all non-negative), so that no clock difference overflows, the send clocks of
the samples of that publisher that pass the message clock check form a strictly
increasing sequence. -/
theorem C4_accepted_clocks_strictly_increasing (s : CDataReader) (tid : String)
    (l : List Sample) (lo : Int) (hdrop : s.drop_out_of_order_messages = true)
    (hclocks : ∀ a ∈ l, lo ≤ a.clock_ ∧ a.clock_ < lo + 9223372036854775808)
    (hstored : ∀ last, mapFind s.m_writer_counter_map tid = some last →
      lo ≤ last ∧ last < lo + 9223372036854775808) :
    (acceptedClocks tid s l).Pairwise (fun c1 c2 => c1 < c2) :=
  (acceptedClocks_increasing tid lo l s hdrop hclocks hstored).1

/-- Witness of C4 (amended): clocks 1, 2, 2, 5, 4, 6 of publisher "p1" (distinct payload
hashes): the accepted ones are 1, 2, 5, 6. -/
theorem C4_accepted_clocks_strictly_increasing_witness :
    acceptedClocks "p1" (exampleReader true)
        [exampleSample 1 1, exampleSample 2 2, exampleSample 2 3, exampleSample 5 4,
          exampleSample 4 5, exampleSample 6 6] = [1, 2, 5, 6] ∧
    (acceptedClocks "p1" (exampleReader true)
        [exampleSample 1 1, exampleSample 2 2, exampleSample 2 3, exampleSample 5 4,
          exampleSample 4 5, exampleSample 6 6]).Pairwise (fun c1 c2 => c1 < c2) :=
  ⟨by decide, C4_accepted_clocks_strictly_increasing (exampleReader true) "p1" _ 0
    (by decide) (by decide) (by decide)⟩

theorem popWhileOver_eq_drop (n : Nat) (q : List Nat) :
    popWhileOver n q = q.drop (q.length - n) := by
  induction q with
  | nil => simp [popWhileOver]
  | cons x xs ih =>
    unfold popWhileOver
    split_ifs with h
    · rw [ih]
      have h2 : (x :: xs).length - n = (xs.length - n) + 1 := by
        simp only [List.length_cons] at h ⊢
        omega
      rw [h2, List.drop_succ_cons]
    · have h2 : (x :: xs).length - n = 0 := by omega
      rw [h2, List.drop_zero]

/-- A sample that passes the created, layer and hash checks but is not delivered (filter
or clock check fails) leaves the state reached after the hash was stored. -/
theorem ApplySample_rejected_after_hash (s : CDataReader) (a : Sample)
    (hc : s.m_created = true) (hl : layerDisabled s.m_attributes a.layer_ = false)
    (hh : a.hash_ ∉ s.m_sample_hash_queue) (hdel : ¬ delivered s a) :
    ApplySample s a =
      { ret := 0, state := storeHash (storeReceiveLayer s a.layer_) a.hash_, calls := [] } := by
  have hc2 : ¬ s.m_created = false := by simp [hc]
  have hl2 : ¬ layerDisabled s.m_attributes a.layer_ = true := by simp [hl]
  have hh2 : a.hash_ ∉ (storeReceiveLayer s a.layer_).m_sample_hash_queue := hh
  unfold ApplySample
  rw [if_neg hc2, if_neg hl2]
  dsimp only
  rw [if_neg hh2]
  split_ifs with hf hr
  · rfl
  · rw [(CheckMessageClock_reject _ _ _ hr).1, (CheckMessageClock_reject _ _ _ hr).2]
  · exfalso
    apply hdel
    refine ⟨hc, hl, hh, ?_, ?_⟩
    · by_contra hcon
      apply hf
      push_neg at hcon
      exact ⟨by simpa using hcon.1, hcon.2⟩
    · rw [← (CheckMessageClock_congr s (storeHash (storeReceiveLayer s a.layer_) a.hash_)
        _ _ rfl rfl rfl).1]
      simpa using hr

/-- The hash queue after `ApplySample`: the hash is pushed (and the queue trimmed to 64)
exactly when the reader is created, the layer is enabled and the hash is not in the
queue; otherwise the queue is unchanged. -/
theorem ApplySample_hash_queue (s : CDataReader) (a : Sample) :
    (ApplySample s a).state.m_sample_hash_queue =
      if s.m_created = true ∧ layerDisabled s.m_attributes a.layer_ = false ∧
          a.hash_ ∉ s.m_sample_hash_queue
      then popWhileOver 64 (s.m_sample_hash_queue ++ [a.hash_])
      else s.m_sample_hash_queue := by
  by_cases hc : s.m_created = false
  · simp [ApplySample, hc]
  by_cases hl : layerDisabled s.m_attributes a.layer_ = true
  · simp [ApplySample, hc, hl]
  by_cases hh : a.hash_ ∈ s.m_sample_hash_queue
  · have hh2 : a.hash_ ∈ (storeReceiveLayer s a.layer_).m_sample_hash_queue := hh
    unfold ApplySample
    rw [if_neg hc, if_neg hl]
    dsimp only
    rw [if_pos hh2]
    simp [hh, storeReceiveLayer]
  · have hcond : s.m_created = true ∧ layerDisabled s.m_attributes a.layer_ = false ∧
        a.hash_ ∉ s.m_sample_hash_queue :=
      ⟨by simpa using hc, by simpa using hl, hh⟩
    rw [if_pos hcond]
    by_cases hdel : delivered s a
    · rw [ApplySample_of_delivered s a hdel]
      dsimp only
      rw [deliverSample_frame]
      dsimp only [countSample]
      rw [CheckMessageClock_frame]
      rfl
    · rw [ApplySample_rejected_after_hash s a hcond.1 hcond.2.1 hh hdel]
      rfl

/-- C5: for a created reader and a sample on an enabled layer whose payload hash is
already in the hash queue, `ApplySample` returns the payload size, invokes no callback at
all, and only latches the layer active flag: read slot (buffer, time, filled flag), read
clock, per-publisher clock map, drop counter and hash queue are unchanged.  The queue
holds hashes only, so the layer of the earlier sample plays no role. -/
theorem C5_duplicate_hash_silently_rejected (s : CDataReader) (a : Sample)
    (hcreated : s.m_created = true)
    (hlayer : layerDisabled s.m_attributes a.layer_ = false)
    (hhash : a.hash_ ∈ s.m_sample_hash_queue) :
    (ApplySample s a).calls = [] ∧
    (ApplySample s a).ret = a.size_ ∧
    (ApplySample s a).state = storeReceiveLayer s a.layer_ ∧
    (ApplySample s a).state.m_read_buf = s.m_read_buf ∧
    (ApplySample s a).state.m_read_time = s.m_read_time ∧
    (ApplySample s a).state.m_read_buf_received = s.m_read_buf_received ∧
    (ApplySample s a).state.m_clock = s.m_clock ∧
    (ApplySample s a).state.m_writer_counter_map = s.m_writer_counter_map ∧
    (ApplySample s a).state.m_message_drops = s.m_message_drops ∧
    (ApplySample s a).state.m_sample_hash_queue = s.m_sample_hash_queue := by
  have hh2 : a.hash_ ∈ (storeReceiveLayer s a.layer_).m_sample_hash_queue := hhash
  have h : ApplySample s a = { ret := a.size_, state := storeReceiveLayer s a.layer_ } := by
    unfold ApplySample
    simp only [hcreated, hlayer, hh2, if_true]
    simp
  rw [h]
  exact ⟨rfl, rfl, rfl, rfl, rfl, rfl, rfl, rfl, rfl, rfl⟩

/-- Witness of C5: a sample with hash 42 arrives on udp, then the same hash arrives on
shm: the second arrival invokes nothing and leaves the read clock at 1. -/
theorem C5_duplicate_hash_silently_rejected_witness :
    (ApplySample (ApplySample (exampleReader true) (exampleSample 1 42)).state
        { exampleSample 2 42 with layer_ := tl_ecal_shm }).calls = [] ∧
    (ApplySample (ApplySample (exampleReader true) (exampleSample 1 42)).state
        { exampleSample 2 42 with layer_ := tl_ecal_shm }).state.m_clock = 1 :=
  have h := C5_duplicate_hash_silently_rejected
    (ApplySample (exampleReader true) (exampleSample 1 42)).state
    { exampleSample 2 42 with layer_ := tl_ecal_shm } (by decide) (by decide) (by decide)
  ⟨h.1, h.2.2.2.2.2.2.1.trans (by decide)⟩

theorem runSamples_cons (s : CDataReader) (a : Sample) (l : List Sample) :
    runSamples s (a :: l) = runSamples (ApplySample s a).state l := rfl

theorem runSamples_append (s : CDataReader) (l1 l2 : List Sample) :
    runSamples s (l1 ++ l2) = runSamples (runSamples s l1) l2 := by
  simp [runSamples, List.foldl_append]

/-- Pushing onto the last 64 elements of `X` and trimming gives the last 64 elements of
`X ++ [h]`. -/
theorem popWhileOver_push_window (X : List Nat) (h : Nat) :
    popWhileOver 64 (X.drop (X.length - 64) ++ [h])
      = (X ++ [h]).drop ((X ++ [h]).length - 64) := by
  rw [popWhileOver_eq_drop]
  by_cases hlen : X.length < 64
  · have h0 : X.length - 64 = 0 := by omega
    rw [h0, List.drop_zero]
  · have hk : X.length - 64 ≤ X.length := Nat.sub_le _ _
    have h1 : (List.drop (X.length - 64) X ++ [h]).length - 64 = 1 := by
      simp only [List.length_append, List.length_drop, List.length_singleton]
      omega
    have h2 : (X ++ [h]).length - 64 = (X.length - 64) + 1 := by
      simp only [List.length_append, List.length_singleton]
      omega
    rw [h1, h2, ← List.drop_drop, List.drop_append_of_le_length hk]

/-- The hash queue after a run of samples with fresh, pairwise distinct hashes holds the
last 64 of all hashes seen. -/
theorem runSamples_hash_queue (l : List Sample) :
    ∀ (s : CDataReader) (X : List Nat), s.m_created = true →
      (∀ a ∈ l, layerDisabled s.m_attributes a.layer_ = false) →
      s.m_sample_hash_queue = X.drop (X.length - 64) →
      (X ++ l.map (fun a => a.hash_)).Nodup →
      (runSamples s l).m_sample_hash_queue
        = (X ++ l.map (fun a => a.hash_)).drop ((X ++ l.map (fun a => a.hash_)).length - 64) := by
  induction l with
  | nil => intro s X _ _ hq _; simpa [runSamples] using hq
  | cons a rest ih =>
    intro s X hc hl hq hnd
    have hkeep := ApplySample_keeps s a
    have hla : layerDisabled s.m_attributes a.layer_ = false := hl a (List.mem_cons_self _ _)
    have hfresh : a.hash_ ∉ s.m_sample_hash_queue := by
      intro hmem
      rw [hq] at hmem
      have hX : a.hash_ ∈ X := List.mem_of_mem_drop hmem
      have hd := (List.nodup_append.1 hnd).2.2
      exact hd hX (by simp)
    have hq2 : (ApplySample s a).state.m_sample_hash_queue
        = (X ++ [a.hash_]).drop ((X ++ [a.hash_]).length - 64) := by
      rw [ApplySample_hash_queue, if_pos ⟨hc, hla, hfresh⟩, hq]
      exact popWhileOver_push_window X a.hash_
    have hstep := ih (ApplySample s a).state (X ++ [a.hash_]) (hkeep.2.1.trans hc)
      (fun b hb => by rw [hkeep.2.2.1]; exact hl b (List.mem_cons_of_mem _ hb)) hq2
      (by simpa [List.append_assoc] using hnd)
    rw [runSamples_cons, hstep]
    simp [List.append_assoc]

/-- C6: starting from an empty hash queue, after 65 samples with pairwise distinct hashes
h1..h65 on enabled layers the queue holds exactly h2..h65 in arrival order; a following
sample carrying h1 (on an enabled layer) is not found in the queue, its hash is pushed
(queue h3..h65, h1), and whether it is delivered is decided by the filter and clock
checks alone. -/
theorem C6_hash_queue_evicts_oldest_after_65 (s : CDataReader) (l : List Sample) (b : Sample)
    (hcreated : s.m_created = true) (hempty : s.m_sample_hash_queue = [])
    (hlen : l.length = 65) (hdistinct : (l.map (fun a => a.hash_)).Nodup)
    (hlayers : ∀ a ∈ l, layerDisabled s.m_attributes a.layer_ = false)
    (hfirst : (l.map (fun a => a.hash_)).head? = some b.hash_)
    (hlayer : layerDisabled s.m_attributes b.layer_ = false) :
    (runSamples s l).m_sample_hash_queue = (l.map (fun a => a.hash_)).tail ∧
    b.hash_ ∉ (runSamples s l).m_sample_hash_queue ∧
    (ApplySample (runSamples s l) b).state.m_sample_hash_queue
      = (l.map (fun a => a.hash_)).drop 2 ++ [b.hash_] ∧
    (delivered (runSamples s l) b ↔
      ((runSamples s l).m_id_set.isEmpty = true ∨ b.id_ ∈ (runSamples s l).m_id_set) ∧
      (CheckMessageClock (runSamples s l) b.topic_info_.tid b.clock_).ret = true) := by
  have hrun := runSamples_hash_queue l s [] hcreated hlayers (by simp [hempty])
    (by simpa using hdistinct)
  have hmaplen : (l.map (fun a => a.hash_)).length = 65 := by simp [hlen]
  have hq : (runSamples s l).m_sample_hash_queue = (l.map (fun a => a.hash_)).tail := by
    rw [hrun]
    simp only [List.nil_append, hmaplen]
    exact List.drop_one _
  have hkeep : (runSamples s l).m_created = true ∧
      (runSamples s l).m_attributes = s.m_attributes := by
    clear hrun hq hfirst hdistinct hlen hlayers hmaplen hempty
    induction l generalizing s with
    | nil => exact ⟨hcreated, rfl⟩
    | cons a rest ih =>
      rw [runSamples_cons]
      have hk := ApplySample_keeps s a
      have := ih (ApplySample s a).state (hk.2.1.trans hcreated) (by rw [hk.2.2.1]; exact hlayer)
      exact ⟨this.1, this.2.trans hk.2.2.1⟩
  have hnotin : b.hash_ ∉ (runSamples s l).m_sample_hash_queue := by
    rw [hq]
    cases hm : l.map (fun a => a.hash_) with
    | nil => simp
    | cons x xs =>
      rw [hm] at hfirst hdistinct
      simp only [List.head?_cons, Option.some.injEq] at hfirst
      rw [← hfirst]
      exact (List.nodup_cons.1 hdistinct).1
  have hlayer2 : layerDisabled (runSamples s l).m_attributes b.layer_ = false := by
    rw [hkeep.2]; exact hlayer
  refine ⟨hq, hnotin, ?_, ?_⟩
  · rw [ApplySample_hash_queue, if_pos ⟨hkeep.1, hlayer2, hnotin⟩, hq, popWhileOver_eq_drop]
    have h1 : ((l.map (fun a => a.hash_)).tail ++ [b.hash_]).length - 64 = 1 := by
      simp [hlen]
    have h2 : 1 ≤ (l.map (fun a => a.hash_)).tail.length := by simp [hlen]
    rw [h1, List.drop_append_of_le_length h2, ← List.drop_one, List.drop_drop]
  · unfold delivered
    constructor
    · intro h; exact ⟨h.2.2.2.1, h.2.2.2.2⟩
    · intro h; exact ⟨hkeep.1, hlayer2, hnotin, h.1, h.2⟩

/-- Witness of C6: after the samples with hashes 1..65 the queue is 2..65, and a sample
carrying hash 1 again is pushed. -/
theorem C6_hash_queue_evicts_oldest_after_65_witness :
    (runSamples (exampleReader true) example65Samples).m_sample_hash_queue
      = (example65Samples.map (fun a => a.hash_)).tail ∧
    (1 : Nat) ∉ (runSamples (exampleReader true) example65Samples).m_sample_hash_queue ∧
    (ApplySample (runSamples (exampleReader true) example65Samples)
        (exampleSample 66 1)).state.m_sample_hash_queue
      = (example65Samples.map (fun a => a.hash_)).drop 2 ++ [1] :=
  have h := C6_hash_queue_evicts_oldest_after_65 (exampleReader true) example65Samples
    (exampleSample 66 1) (by decide) (by decide) (by decide) (by decide) (by decide)
    (by decide) (by decide)
  ⟨h.1, h.2.1, h.2.2.1⟩

/-- A hash that has at most `n` (at most 62) younger hashes behind it in the queue is
still in the queue after one more `ApplySample`, with at most `n + 1` behind it. -/
theorem ApplySample_keeps_recent_hash (s : CDataReader) (a : Sample) (h n : Nat)
    (hn : n ≤ 62)
    (hq : ∃ l1 l2, s.m_sample_hash_queue = l1 ++ h :: l2 ∧ l2.length ≤ n) :
    ∃ l1 l2, (ApplySample s a).state.m_sample_hash_queue = l1 ++ h :: l2 ∧
      l2.length ≤ n + 1 := by
  obtain ⟨l1, l2, hq, hl2⟩ := hq
  rw [ApplySample_hash_queue]
  split_ifs with hcond
  · refine ⟨l1.drop ((l1 ++ h :: l2 ++ [a.hash_]).length - 64), l2 ++ [a.hash_], ?_, ?_⟩
    · rw [hq, popWhileOver_eq_drop]
      have hle : (l1 ++ h :: l2 ++ [a.hash_]).length - 64 ≤ l1.length := by
        simp only [List.length_append, List.length_cons, List.length_singleton,
          List.length_nil]
        omega
      rw [show l1 ++ h :: l2 ++ [a.hash_] = l1 ++ (h :: (l2 ++ [a.hash_])) by simp]
      rw [List.drop_append_of_le_length (by simpa using hle)]
    · simp only [List.length_append, List.length_singleton]
      omega
  · exact ⟨l1, l2, hq, by omega⟩

theorem runSamples_keeps_recent_hash (mid : List Sample) (h : Nat) :
    ∀ (s : CDataReader) (n : Nat), n + mid.length ≤ 63 →
      (∃ l1 l2, s.m_sample_hash_queue = l1 ++ h :: l2 ∧ l2.length ≤ n) →
      h ∈ (runSamples s mid).m_sample_hash_queue := by
  induction mid with
  | nil =>
    intro s n _ hq
    obtain ⟨l1, l2, hq, _⟩ := hq
    simp [runSamples, hq]
  | cons a rest ih =>
    intro s n hn hq
    rw [runSamples_cons]
    simp only [List.length_cons] at hn
    exact ih (ApplySample s a).state (n + 1) (by omega)
      (ApplySample_keeps_recent_hash s a h n (by omega) hq)

/-- C7: in every sequence of `ApplySample` calls, if a sample with payload hash h is
delivered and another sample with the same hash arrives later with fewer than 64 samples
arriving in between, the later one is not delivered: no callback is invoked and the read
slot (buffer, time, filled flag) stays as it was. -/
theorem C7_no_second_delivery_within_64_samples (s : CDataReader) (pre mid : List Sample)
    (a b : Sample) (hfirst : delivered (runSamples s pre) a) (hhash : b.hash_ = a.hash_)
    (hwindow : mid.length < 64) :
    ¬ delivered (runSamples s (pre ++ a :: mid)) b ∧
    (ApplySample (runSamples s (pre ++ a :: mid)) b).calls = [] ∧
    (ApplySample (runSamples s (pre ++ a :: mid)) b).state.m_read_buf
      = (runSamples s (pre ++ a :: mid)).m_read_buf ∧
    (ApplySample (runSamples s (pre ++ a :: mid)) b).state.m_read_time
      = (runSamples s (pre ++ a :: mid)).m_read_time ∧
    (ApplySample (runSamples s (pre ++ a :: mid)) b).state.m_read_buf_received
      = (runSamples s (pre ++ a :: mid)).m_read_buf_received := by
  have hpushed : ∃ l1 l2,
      (ApplySample (runSamples s pre) a).state.m_sample_hash_queue = l1 ++ a.hash_ :: l2 ∧
        l2.length ≤ 0 := by
    rw [ApplySample_hash_queue, if_pos ⟨hfirst.1, hfirst.2.1, hfirst.2.2.1⟩,
      popWhileOver_eq_drop]
    refine ⟨(runSamples s pre).m_sample_hash_queue.drop
      (((runSamples s pre).m_sample_hash_queue ++ [a.hash_]).length - 64), [], ?_, le_refl _⟩
    rw [List.drop_append_of_le_length (by simp)]
  have hmem : b.hash_ ∈ (runSamples s (pre ++ a :: mid)).m_sample_hash_queue := by
    rw [runSamples_append, runSamples_cons, hhash]
    exact runSamples_keeps_recent_hash mid a.hash_ _ 0 (by omega) hpushed
  have hnot : ¬ delivered (runSamples s (pre ++ a :: mid)) b := fun hd => hd.2.2.1 hmem
  obtain ⟨hcalls, hstate⟩ := ApplySample_of_not_delivered _ b hnot
  refine ⟨hnot, hcalls, ?_, ?_, ?_⟩ <;>
    rcases hstate with h1 | h1 | h1 <;> rw [h1] <;> rfl

/-- Witness of C7: hash 42 is delivered, one other sample arrives, then hash 42 arrives
again and is not delivered. -/
theorem C7_no_second_delivery_within_64_samples_witness :
    ¬ delivered (runSamples (exampleReader true) [exampleSample 1 42, exampleSample 2 43])
        (exampleSample 3 42) ∧
    (ApplySample (runSamples (exampleReader true) [exampleSample 1 42, exampleSample 2 43])
        (exampleSample 3 42)).calls = [] :=
  have h := C7_no_second_delivery_within_64_samples (exampleReader true) []
    [exampleSample 2 43] (exampleSample 1 42) (exampleSample 3 42) (by decide) (by decide)
    (by decide)
  ⟨h.1, h.2.1⟩

/-- C8: for a created reader, `Read` with timeout 0 returns (it does not wait), its
return value is true if and only if the filled flag `m_read_buf_received` was true at the
call, and the filled flag is false afterwards in either case. -/
theorem C8_Read_poll_returns_filled_flag (s : CDataReader) (buf_ : List Nat)
    (time_ : Option Int) (hcreated : s.m_created = true) :
    ∃ r, Read s buf_ time_ 0 = some r ∧
      (r.ret = true ↔ s.m_read_buf_received = true) ∧
      r.state.m_read_buf_received = false := by
  unfold Read
  cases hrec : s.m_read_buf_received <;> simp [hcreated]
  exact hrec

/-- Witness of C8: polling a fresh reader returns false, polling after one buffered
sample returns true; the flag is false afterwards. -/
theorem C8_Read_poll_returns_filled_flag_witness :
    ∃ r, Read (ApplySample (exampleReader true) (exampleSample 1 42)).state [] (some 0) 0
        = some r ∧
      (r.ret = true ↔
        (ApplySample (exampleReader true) (exampleSample 1 42)).state.m_read_buf_received
          = true) ∧
      r.state.m_read_buf_received = false :=
  C8_Read_poll_returns_filled_flag _ [] (some 0) (by decide)

theorem CheckMessageClock_calls_no_receive (s : CDataReader) (tid : String) (c : Int) :
    (CheckMessageClock s tid c).calls.filter Call.isReceive = [] := by
  unfold CheckMessageClock
  split
  · rfl
  · dsimp only
    split_ifs
    · rfl
    · rfl
    · split <;> rfl
    · rfl
    · rfl
    · rfl

/-- Frame of `runSamples`: it never writes the created flag or the callback registry. -/
theorem runSamples_keeps (l : List Sample) : ∀ s : CDataReader,
    (runSamples s l).m_created = s.m_created ∧
    (runSamples s l).m_receive_callback = s.m_receive_callback := by
  induction l with
  | nil => intro s; exact ⟨rfl, rfl⟩
  | cons a rest ih =>
    intro s
    rw [runSamples_cons]
    have hk := ApplySample_keeps s a
    exact ⟨(ih _).1.trans hk.2.1, (ih _).2.trans hk.2.2.2.2.1⟩

/-- The receive callback seen at the delivery stage is the one installed at the call. -/
theorem delivery_stage_callback (s : CDataReader) (a : Sample) :
    (countSample (CheckMessageClock (storeHash (storeReceiveLayer s a.layer_) a.hash_)
      a.topic_info_.tid a.clock_).state a.size_).m_receive_callback = s.m_receive_callback ∧
    (countSample (CheckMessageClock (storeHash (storeReceiveLayer s a.layer_) a.hash_)
      a.topic_info_.tid a.clock_).state a.size_).m_connection_map = s.m_connection_map ∧
    (countSample (CheckMessageClock (storeHash (storeReceiveLayer s a.layer_) a.hash_)
      a.topic_info_.tid a.clock_).state a.size_).m_read_buf = s.m_read_buf ∧
    (countSample (CheckMessageClock (storeHash (storeReceiveLayer s a.layer_) a.hash_)
      a.topic_info_.tid a.clock_).state a.size_).m_read_time = s.m_read_time ∧
    (countSample (CheckMessageClock (storeHash (storeReceiveLayer s a.layer_) a.hash_)
      a.topic_info_.tid a.clock_).state a.size_).m_read_buf_received
        = s.m_read_buf_received := by
  dsimp only [countSample]
  rw [CheckMessageClock_frame]
  exact ⟨rfl, rfl, rfl, rfl, rfl⟩

/-- A delivered sample with no receive callback installed fills the read slot and
invokes no receive callback. -/
theorem ApplySample_delivered_no_callback (s : CDataReader) (a : Sample)
    (hdel : delivered s a) (hcb : s.m_receive_callback = none) :
    (ApplySample s a).calls.filter Call.isReceive = [] ∧
    (ApplySample s a).state.m_read_buf = a.payload_ ∧
    (ApplySample s a).state.m_read_time = a.time_ ∧
    (ApplySample s a).state.m_read_buf_received = true := by
  rw [ApplySample_of_delivered s a hdel]
  dsimp only
  have hcb2 := (delivery_stage_callback s a).1.trans hcb
  unfold deliverSample
  rw [hcb2]
  dsimp only
  rw [List.append_nil]
  exact ⟨CheckMessageClock_calls_no_receive _ _ _, rfl, rfl, rfl⟩

/-- A delivered sample with receive callback `cb` installed invokes `cb` once, with the
data of the sample and the data type info of the publisher's connection entry (empty
if there is none), and leaves the read slot alone. -/
theorem ApplySample_delivered_callback (s : CDataReader) (a : Sample) (cb : CallbackId)
    (hdel : delivered s a) (hcb : s.m_receive_callback = some cb) :
    (ApplySample s a).calls.filter Call.isReceive =
      [Call.receive cb
        { topic_name := a.topic_info_.tname
          topic_id := { host_name := a.topic_info_.hname, entity_id := a.topic_info_.tid,
                        process_id := a.topic_info_.pid } }
        ((mapFind s.m_connection_map
            { entity_id := a.topic_info_.tid, host_name := a.topic_info_.hname,
              process_id := a.topic_info_.pid }).getD {}).data_type_info
        { buf := a.payload_, size := a.payload_.length, id := a.id_, time := a.time_,
          clock := a.clock_ }] ∧
    (ApplySample s a).state.m_read_buf = s.m_read_buf ∧
    (ApplySample s a).state.m_read_time = s.m_read_time ∧
    (ApplySample s a).state.m_read_buf_received = s.m_read_buf_received := by
  rw [ApplySample_of_delivered s a hdel]
  dsimp only
  obtain ⟨h1, h2, h3, h4, h5⟩ := delivery_stage_callback s a
  have h1 := h1.trans hcb
  rw [List.filter_append, CheckMessageClock_calls_no_receive, List.nil_append]
  unfold deliverSample
  rw [h1]
  dsimp only
  rw [h2]
  cases hfind : mapFind s.m_connection_map
      { entity_id := a.topic_info_.tid, host_name := a.topic_info_.hname,
        process_id := a.topic_info_.pid } with
  | none =>
    dsimp only
    exact ⟨by simp [Call.isReceive, Sample.size_], h3, h4, h5⟩
  | some connection =>
    dsimp only
    exact ⟨by simp [Call.isReceive, Sample.size_], h3, h4, h5⟩

/-- C9: with no receive callback installed, after any sequence of samples whose last one
is accepted (delivered), `Read` returns true with the caller's buffer equal to the payload
and the caller's time equal to the send time of that last sample, whatever earlier
samples were buffered and not read; a second `Read` with timeout 0 right after returns
false. -/
theorem C9_Read_returns_most_recent_sample (s : CDataReader) (l : List Sample) (a : Sample)
    (buf_ buf2_ : List Nat) (time_ time2_ rcv_timeout_ms_ : Int)
    (hcb : s.m_receive_callback = none)
    (hlast : delivered (runSamples s l) a) :
    ∃ r, Read (runSamples s (l ++ [a])) buf_ (some time_) rcv_timeout_ms_ = some r ∧
      r.ret = true ∧ r.buf_ = a.payload_ ∧ r.time_ = some a.time_ ∧
      ∃ r2, Read r.state buf2_ (some time2_) 0 = some r2 ∧ r2.ret = false ∧
        r2.buf_ = buf2_ ∧ r2.time_ = some time2_ := by
  have hcb2 : (runSamples s l).m_receive_callback = none := (runSamples_keeps l s).2.trans hcb
  obtain ⟨_, hbuf, htime, hrec⟩ := ApplySample_delivered_no_callback _ a hlast hcb2
  have hcr : (ApplySample (runSamples s l) a).state.m_created = true :=
    (ApplySample_keeps _ a).2.1.trans hlast.1
  have hrun : runSamples s (l ++ [a]) = (ApplySample (runSamples s l) a).state := by
    rw [runSamples_append]; rfl
  rw [hrun]
  unfold Read
  simp [hcr, hrec, hbuf, htime]

/-- Witness of C9: samples with clocks 1 and 2 are buffered without a read in between;
`Read` then returns the payload and send time of the second. -/
theorem C9_Read_returns_most_recent_sample_witness :
    ∃ r, Read (runSamples (exampleReader true) ([exampleSample 1 41] ++ [exampleSample 2 42]))
        [] (some 0) 0 = some r ∧
      r.ret = true ∧ r.buf_ = [42] ∧ r.time_ = some 1002 ∧
      ∃ r2, Read r.state [7] (some 5) 0 = some r2 ∧ r2.ret = false ∧
        r2.buf_ = [7] ∧ r2.time_ = some 5 :=
  C9_Read_returns_most_recent_sample (exampleReader true) [exampleSample 1 41]
    (exampleSample 2 42) [] [7] 0 5 0 (by decide) (by decide)

/-- C10: for every accepted (delivered) sample: if a receive callback is installed,
`ApplySample` invokes it exactly once, with size, id, time and clock equal to the
payload length, filter id, send time and send clock of the sample, and leaves the read
slot (buffer, time, filled flag) unchanged; if none is installed, no receive callback is
invoked and the read slot is filled with the payload and send time.  `AddReceiveCallback`
replaces the installed callback: afterwards the sample is handed to the new callback
only. -/
theorem C10_delivery_to_callback_or_read_slot (s : CDataReader) (a : Sample)
    (hdel : delivered s a) :
    (∀ cb, s.m_receive_callback = some cb →
      (ApplySample s a).calls.filter Call.isReceive =
        [Call.receive cb
          { topic_name := a.topic_info_.tname
            topic_id := { host_name := a.topic_info_.hname, entity_id := a.topic_info_.tid,
                          process_id := a.topic_info_.pid } }
          ((mapFind s.m_connection_map
              { entity_id := a.topic_info_.tid, host_name := a.topic_info_.hname,
                process_id := a.topic_info_.pid }).getD {}).data_type_info
          { buf := a.payload_, size := a.payload_.length, id := a.id_, time := a.time_,
            clock := a.clock_ }] ∧
      (ApplySample s a).state.m_read_buf = s.m_read_buf ∧
      (ApplySample s a).state.m_read_time = s.m_read_time ∧
      (ApplySample s a).state.m_read_buf_received = s.m_read_buf_received) ∧
    (s.m_receive_callback = none →
      (ApplySample s a).calls.filter Call.isReceive = [] ∧
      (ApplySample s a).state.m_read_buf = a.payload_ ∧
      (ApplySample s a).state.m_read_time = a.time_ ∧
      (ApplySample s a).state.m_read_buf_received = true) ∧
    (∀ cb2,
      (AddReceiveCallback s (some cb2)).ret = true ∧
      (AddReceiveCallback s (some cb2)).state.m_receive_callback = some cb2 ∧
      (ApplySample (AddReceiveCallback s (some cb2)).state a).calls.filter Call.isReceive =
        [Call.receive cb2
          { topic_name := a.topic_info_.tname
            topic_id := { host_name := a.topic_info_.hname, entity_id := a.topic_info_.tid,
                          process_id := a.topic_info_.pid } }
          ((mapFind s.m_connection_map
              { entity_id := a.topic_info_.tid, host_name := a.topic_info_.hname,
                process_id := a.topic_info_.pid }).getD {}).data_type_info
          { buf := a.payload_, size := a.payload_.length, id := a.id_, time := a.time_,
            clock := a.clock_ }]) := by
  refine ⟨fun cb hcb => ApplySample_delivered_callback s a cb hdel hcb,
    fun hcb => ApplySample_delivered_no_callback s a hdel hcb, fun cb2 => ?_⟩
  have hadd : AddReceiveCallback s (some cb2)
      = { ret := true, state := { s with m_receive_callback := some cb2 } } := by
    unfold AddReceiveCallback
    simp [hdel.1]
  rw [hadd]
  refine ⟨rfl, rfl, ?_⟩
  have hdel2 : delivered { s with m_receive_callback := some cb2 } a := by
    obtain ⟨h1, h2, h3, h4, h5⟩ := hdel
    exact ⟨h1, h2, h3, h4,
      (CheckMessageClock_congr s { s with m_receive_callback := some cb2 } _ _
        rfl rfl rfl).1.trans h5⟩
  exact (ApplySample_delivered_callback _ a cb2 hdel2 rfl).1

/-- Witness of C10: a reader with receive callback 1 replaced by callback 2 hands an
accepted sample to callback 2 only. -/
theorem C10_delivery_to_callback_or_read_slot_witness :
    (ApplySample (AddReceiveCallback (AddReceiveCallback (exampleReader true) (some 1)).state
        (some 2)).state (exampleSample 1 42)).calls.filter Call.isReceive =
      [Call.receive 2
        { topic_name := "T", topic_id := { host_name := "h", entity_id := "p1", process_id := 1 } }
        {} { buf := [42], size := 1, id := 0, time := 1001, clock := 1 }] :=
  ((C10_delivery_to_callback_or_read_slot
    (AddReceiveCallback (exampleReader true) (some 1)).state (exampleSample 1 42)
    (by decide)).2.2 2).2.2

/-- C11: on the code `SetAttribute` and `ClearAttribute` have no created check: after
`Stop` has returned true they still return true, while `Stop`, `Read` (slot filled
before the stop), `AddReceiveCallback`, `RemReceiveCallback`, `AddEventCallback` and
`RemEventCallback` return false; before `Stop` all eight return true. -/
theorem C11_SetAttribute_ClearAttribute_return_true_after_Stop :
    (Stop exampleDropPolicyClock5).ret = true ∧
    (SetAttribute (Stop exampleDropPolicyClock5).state "a" "b").ret = true ∧
    (ClearAttribute (Stop exampleDropPolicyClock5).state "a").ret = true ∧
    (Stop (Stop exampleDropPolicyClock5).state).ret = false ∧
    (Read (Stop exampleDropPolicyClock5).state [] (some 0) 0).map (fun r => r.ret) = some false ∧
    (AddReceiveCallback (Stop exampleDropPolicyClock5).state (some 1)).ret = false ∧
    (RemReceiveCallback (Stop exampleDropPolicyClock5).state).ret = false ∧
    (AddEventCallback (Stop exampleDropPolicyClock5).state sub_event_connected (some 2)).ret
      = false ∧
    (RemEventCallback (Stop exampleDropPolicyClock5).state sub_event_connected).ret = false ∧
    exampleDropPolicyClock5.m_read_buf_received = true ∧
    (Read exampleDropPolicyClock5 [] (some 0) 0).map (fun r => r.ret) = some true ∧
    (SetAttribute exampleDropPolicyClock5 "a" "b").ret = true ∧
    (ClearAttribute exampleDropPolicyClock5 "a").ret = true ∧
    (AddReceiveCallback exampleDropPolicyClock5 (some 1)).ret = true ∧
    (RemReceiveCallback exampleDropPolicyClock5).ret = true ∧
    (AddEventCallback exampleDropPolicyClock5 sub_event_connected (some 2)).ret = true ∧
    (RemEventCallback exampleDropPolicyClock5 sub_event_connected).ret = true := by
  decide

theorem eventCallback_of_empty (s : CDataReader) (type_ : eCAL_Subscriber_Event)
    (h : s.m_event_callback_map = []) : eventCallback s type_ = none := by
  simp [eventCallback, h, mapFind]

/-- A stopped reader (not created, no callback left) stays stopped under every call, and
no call invokes anything. -/
theorem step_of_stopped (s : CDataReader) (op : Op)
    (hc : s.m_created = false) (hr : s.m_receive_callback = none)
    (he : s.m_event_callback_map = []) :
    (step s op).2 = [] ∧ (step s op).1.m_created = false ∧
    (step s op).1.m_receive_callback = none ∧ (step s op).1.m_event_callback_map = [] := by
  cases op with
  | applySample a => simp [step, ApplySample, hc, hr, he]
  | applyPublication k i l =>
    have h1 : ∀ t : CDataReader, t.m_event_callback_map = [] →
        FireConnectEvent t k.entity_id i = [] ∧ FireUpdateEvent t k.entity_id i = [] := by
      intro t ht
      simp [FireConnectEvent, FireUpdateEvent, eventCallback_of_empty t _ ht]
    simp only [step, ApplyPublication]
    split
    · exact ⟨rfl, hc, hr, he⟩
    · dsimp only
      refine ⟨?_, hc, hr, he⟩
      split_ifs
      · exact (h1 _ he).1
      · exact (h1 _ he).2
      · rfl
  | removePublication k =>
    have h1 : ∀ t : CDataReader, t.m_event_callback_map = [] → FireDisconnectEvent t = [] := by
      intro t ht
      simp [FireDisconnectEvent, eventCallback_of_empty t _ ht]
    simp only [step, RemovePublication]
    refine ⟨?_, hc, hr, he⟩
    split_ifs
    · exact h1 _ he
    · rfl
  | addReceiveCallback cb => simp [step, AddReceiveCallback, hc, hr, he]
  | remReceiveCallback => simp [step, RemReceiveCallback, hc, hr, he]
  | addEventCallback t cb => simp [step, AddEventCallback, hc, hr, he]
  | remEventCallback t => simp [step, RemEventCallback, hc, hr, he]
  | setFilterIDs ids => simp [step, SetFilterIDs, hc, hr, he]
  | setAttribute n v => simp [step, SetAttribute, hc, hr, he]
  | clearAttribute n => simp [step, ClearAttribute, hc, hr, he]
  | read b t ms => simp [step, Read, hc, hr, he]
  | stop => simp [step, Stop, hc, hr, he]

theorem runOps_of_stopped (ops : List Op) : ∀ s : CDataReader,
    s.m_created = false → s.m_receive_callback = none → s.m_event_callback_map = [] →
    (runOps s ops).2 = [] := by
  induction ops with
  | nil => intro s _ _ _; rfl
  | cons op rest ih =>
    intro s hc hr he
    obtain ⟨h1, h2, h3, h4⟩ := step_of_stopped s op hc hr he
    simp only [runOps, h1, List.nil_append]
    exact ih _ h2 h3 h4

/-- C12: after `Stop` has returned true, whatever sequence of calls follows
(`ApplySample`, `ApplyPublication`, `RemovePublication`, callback registration and every
other member function), no receive callback and no event callback is invoked, and nothing
is logged. -/
theorem C12_no_callback_after_Stop (s : CDataReader) (ops : List Op)
    (hstop : (Stop s).ret = true) :
    (runOps (Stop s).state ops).2 = [] := by
  have hc : s.m_created = true := by
    by_contra h
    simp [Stop, h] at hstop
  have hst : Stop s = { ret := true
                        state := { StopTransportLayer s with
                                    m_receive_callback := none
                                    m_event_callback_map := []
                                    m_created := false } } := by
    simp [Stop, hc]
  rw [hst]
  exact runOps_of_stopped ops _ rfl rfl rfl

/-- Witness of C12: a reader with receive and event callbacks is stopped; registering
callbacks again, announcing a publisher twice, a sample and a removal invoke nothing. -/
theorem C12_no_callback_after_Stop_witness :
    (runOps (Stop (AddReceiveCallback exampleReaderWithEvents (some 1)).state).state
      [Op.addReceiveCallback (some 1), Op.addEventCallback sub_event_connected (some 2),
        Op.applyPublication examplePub1 exampleTypeInfo {},
        Op.applyPublication examplePub1 exampleTypeInfo {},
        Op.applySample (exampleSample 1 42), Op.removePublication examplePub1]).2 = [] :=
  C12_no_callback_after_Stop (AddReceiveCallback exampleReaderWithEvents (some 1)).state _
    (by decide)

/-- C13: if the reader is not created (stopped), or the sample arrives on a layer (udp,
shm or tcp) that is not enabled in the configuration, `ApplySample` returns 0, invokes no
callback and leaves the whole state unchanged (so layer active flags, hash queue, clock
map, read clock, drop counter, topic size and read slot are as before). -/
theorem C13_not_created_or_layer_disabled (s : CDataReader) (a : Sample)
    (h : s.m_created = false ∨ layerDisabled s.m_attributes a.layer_ = true) :
    (ApplySample s a).ret = 0 ∧ (ApplySample s a).calls = [] ∧ (ApplySample s a).state = s := by
  unfold ApplySample
  rcases h with h | h
  · simp [h]
  · by_cases hc : s.m_created = false
    · simp [hc]
    · simp [hc, h]

/-- Witness of C13: a sample on the tcp layer reaches a reader whose configuration has
tcp disabled. -/
theorem C13_not_created_or_layer_disabled_witness :
    (ApplySample (CDataReader.create exampleTypeInfo { topic_name := "T", tcp_enable := false }
        true) { exampleSample 1 42 with layer_ := tl_ecal_tcp }).ret = 0 ∧
    (ApplySample (CDataReader.create exampleTypeInfo { topic_name := "T", tcp_enable := false }
        true) { exampleSample 1 42 with layer_ := tl_ecal_tcp }).calls = [] ∧
    (ApplySample (CDataReader.create exampleTypeInfo { topic_name := "T", tcp_enable := false }
        true) { exampleSample 1 42 with layer_ := tl_ecal_tcp }).state
      = CDataReader.create exampleTypeInfo { topic_name := "T", tcp_enable := false } true :=
  C13_not_created_or_layer_disabled _ _ (Or.inr (by decide))

/-- A sample for a reader that is not created, or on a disabled layer, is dropped at
once: return value 0, nothing invoked, state unchanged. -/
theorem ApplySample_of_not_created_or_disabled (s : CDataReader) (a : Sample)
    (h : s.m_created = false ∨ layerDisabled s.m_attributes a.layer_ = true) :
    ApplySample s a = { ret := 0, state := s, calls := [] } := by
  unfold ApplySample
  rcases h with h | h
  · simp [h]
  · by_cases hc : s.m_created = false
    · simp [hc]
    · simp [hc, h]

/-- A sample whose hash is in the queue (reader created, layer enabled) is dropped by the
hash check: return value `size_`, nothing invoked, only the layer flag latched. -/
theorem ApplySample_of_duplicate_hash (s : CDataReader) (a : Sample)
    (hc : s.m_created = true) (hl : layerDisabled s.m_attributes a.layer_ = false)
    (hh : a.hash_ ∈ s.m_sample_hash_queue) :
    ApplySample s a = { ret := a.size_, state := storeReceiveLayer s a.layer_, calls := [] } := by
  have hh2 : a.hash_ ∈ (storeReceiveLayer s a.layer_).m_sample_hash_queue := hh
  unfold ApplySample
  simp only [hc, hl, hh2, if_true]
  simp

/-- C14 (as stated, refuted): the filter set is 5 and a sample with filter id 0 arrives
whose payload hash 42 is already in the hash queue: `ApplySample` returns the payload
size 1, not 0, because the hash check comes before the filter check. -/
theorem C14_counterexample_filtered_duplicate_returns_size :
    exampleFilterAfterHash42.m_id_set = [5] ∧
    (exampleSample 2 42).id_ ∉ exampleFilterAfterHash42.m_id_set ∧
    (ApplySample exampleFilterAfterHash42 (exampleSample 2 42)).ret = 1 ∧
    ¬ ((ApplySample exampleFilterAfterHash42 (exampleSample 2 42)).ret = 0) := by
  decide

/-- C14 (amended): after `SetFilterIDs S` with `S` non-empty a sample is delivered only if
its filter id is in `S`; a sample whose id is not in `S` invokes no callback, leaves clock
map, drop counter, read clock, topic size and read slot unchanged and returns 0, unless
its payload hash is already in the hash queue (reader created, layer enabled), in which
case the hash check returns the payload size first.  After `SetFilterIDs` with the empty
set the filter id plays no role: the sample is delivered exactly when it passes the
created, layer, hash and clock checks. -/
theorem C14_filter_ids (s : CDataReader) (S : List Int) (a : Sample) :
    (S ≠ [] → delivered (SetFilterIDs s S).state a → a.id_ ∈ S) ∧
    (S ≠ [] → a.id_ ∉ S →
      (ApplySample (SetFilterIDs s S).state a).calls = [] ∧
      (ApplySample (SetFilterIDs s S).state a).state.m_writer_counter_map
        = s.m_writer_counter_map ∧
      (ApplySample (SetFilterIDs s S).state a).state.m_message_drops = s.m_message_drops ∧
      (ApplySample (SetFilterIDs s S).state a).state.m_clock = s.m_clock ∧
      (ApplySample (SetFilterIDs s S).state a).state.m_topic_size = s.m_topic_size ∧
      (ApplySample (SetFilterIDs s S).state a).state.m_read_buf = s.m_read_buf ∧
      (ApplySample (SetFilterIDs s S).state a).state.m_read_time = s.m_read_time ∧
      (ApplySample (SetFilterIDs s S).state a).state.m_read_buf_received
        = s.m_read_buf_received ∧
      (¬ (s.m_created = true ∧ layerDisabled s.m_attributes a.layer_ = false ∧
            a.hash_ ∈ s.m_sample_hash_queue) →
        (ApplySample (SetFilterIDs s S).state a).ret = 0) ∧
      (s.m_created = true ∧ layerDisabled s.m_attributes a.layer_ = false ∧
            a.hash_ ∈ s.m_sample_hash_queue →
        (ApplySample (SetFilterIDs s S).state a).ret = a.size_)) ∧
    (S = [] →
      (delivered (SetFilterIDs s S).state a ↔
        s.m_created = true ∧ layerDisabled s.m_attributes a.layer_ = false ∧
        a.hash_ ∉ s.m_sample_hash_queue ∧
        (CheckMessageClock s a.topic_info_.tid a.clock_).ret = true)) := by
  have hclk : (CheckMessageClock (SetFilterIDs s S).state a.topic_info_.tid a.clock_).ret
      = (CheckMessageClock s a.topic_info_.tid a.clock_).ret :=
    (CheckMessageClock_congr s (SetFilterIDs s S).state _ _ rfl rfl rfl).1
  refine ⟨?_, ?_, ?_⟩
  · intro hS hdel
    rcases hdel.2.2.2.1 with h | h
    · exfalso
      apply hS
      have h2 : S.isEmpty = true := h
      simpa using h2
    · exact h
  · intro hS hid
    have hnd : ¬ delivered (SetFilterIDs s S).state a := by
      intro hdel
      rcases hdel.2.2.2.1 with h | h
      · apply hS
        have h2 : S.isEmpty = true := h
        simpa using h2
      · exact hid h
    obtain ⟨hcalls, hstate⟩ := ApplySample_of_not_delivered _ a hnd
    refine ⟨hcalls, ?_, ?_, ?_, ?_, ?_, ?_, ?_, ?_, ?_⟩
    · rcases hstate with h1 | h1 | h1 <;> rw [h1] <;> rfl
    · rcases hstate with h1 | h1 | h1 <;> rw [h1] <;> rfl
    · rcases hstate with h1 | h1 | h1 <;> rw [h1] <;> rfl
    · rcases hstate with h1 | h1 | h1 <;> rw [h1] <;> rfl
    · rcases hstate with h1 | h1 | h1 <;> rw [h1] <;> rfl
    · rcases hstate with h1 | h1 | h1 <;> rw [h1] <;> rfl
    · rcases hstate with h1 | h1 | h1 <;> rw [h1] <;> rfl
    · intro hnot
      by_cases hc : s.m_created = false
      · rw [ApplySample_of_not_created_or_disabled (SetFilterIDs s S).state a (Or.inl hc)]
      by_cases hl : layerDisabled s.m_attributes a.layer_ = true
      · rw [ApplySample_of_not_created_or_disabled (SetFilterIDs s S).state a (Or.inr hl)]
      have hc2 : s.m_created = true := by simpa using hc
      have hl2 : layerDisabled s.m_attributes a.layer_ = false := by simpa using hl
      have hh : a.hash_ ∉ s.m_sample_hash_queue := fun hh => hnot ⟨hc2, hl2, hh⟩
      rw [ApplySample_rejected_after_hash (SetFilterIDs s S).state a hc2 hl2 hh hnd]
    · intro hdup
      rw [(ApplySample_of_duplicate_hash (SetFilterIDs s S).state a hdup.1 hdup.2.1 hdup.2.2)]
  · intro hS
    subst hS
    unfold delivered
    rw [hclk]
    constructor
    · intro h; exact ⟨h.1, h.2.1, h.2.2.1, h.2.2.2.2⟩
    · intro h; exact ⟨h.1, h.2.1, h.2.2.1, Or.inl rfl, h.2.2.2⟩

/-- Witness of C14 (amended): with filter set 5, a fresh sample with filter id 0 invokes
nothing and returns 0. -/
theorem C14_filter_ids_witness :
    (ApplySample (SetFilterIDs (exampleReader true) [5]).state (exampleSample 1 42)).calls = [] ∧
    (ApplySample (SetFilterIDs (exampleReader true) [5]).state (exampleSample 1 42)).ret = 0 :=
  have h := (C14_filter_ids (exampleReader true) [5] (exampleSample 1 42)).2.1
    (by decide) (by decide)
  ⟨h.1, h.2.2.2.2.2.2.2.2.1 (by decide)⟩

theorem mapSet_of_mapFind {κ ν : Type} [DecidableEq κ] (m : List (κ × ν)) (k : κ) (v : ν)
    (h : mapFind m k = some v) : mapSet m k v = m := by
  induction m with
  | nil => simp [mapFind] at h
  | cons p rest ih =>
    obtain ⟨k1, v1⟩ := p
    by_cases hk : k1 = k
    · subst hk
      simp only [mapFind, if_true, Option.some.injEq] at h
      simp [mapSet, h]
    · simp only [mapFind, hk, if_false] at h
      simp [mapSet, hk, ih h]

/-- C15: for a key whose entry is active and holds `(data_type_info, layer_states)`,
applying the same publication again leaves the connection table and the number of active
entries unchanged (the stored count too, if it was the number of active entries), makes no
connected event, and dispatches exactly one update_connection event, to the installed
update_connection callback (nothing is invoked if none is installed); a further identical
call leaves the whole state as the first one left it. -/
theorem C15_ApplyPublication_idempotent_when_active (s : CDataReader)
    (k : SPublicationInfo) (info : SDataTypeInformation) (layers : SLayerStates)
    (hactive : mapFind s.m_connection_map k
      = some { data_type_info := info, layer_states := layers, state := true }) :
    (ApplyPublication s k info layers).state.m_connection_map = s.m_connection_map ∧
    GetConnectionCount (ApplyPublication s k info layers).state = GetConnectionCount s ∧
    (ApplyPublication s k info layers).state.m_connection_count = GetConnectionCount s ∧
    (s.m_connection_count = GetConnectionCount s →
      (ApplyPublication s k info layers).state.m_connection_count = s.m_connection_count) ∧
    (ApplyPublication s k info layers).calls.filter (Call.isEventOf sub_event_connected) = [] ∧
    (ApplyPublication s k info layers).calls = FireUpdateEvent s k.entity_id info ∧
    (∀ cb, eventCallback s sub_event_update_connection = some cb →
      (ApplyPublication s k info layers).calls
        = [Call.event cb s.m_attributes.topic_name
            { type := sub_event_update_connection, clock := 0, tid := k.entity_id,
              tdatatype := info }]) ∧
    (eventCallback s sub_event_update_connection = none →
      (ApplyPublication s k info layers).calls = []) ∧
    (ApplyPublication (ApplyPublication s k info layers).state k info layers).state
      = (ApplyPublication s k info layers).state := by
  have hset := mapSet_of_mapFind s.m_connection_map k _ hactive
  have hA : ApplyPublication s k info layers =
      { ret := ()
        state :=
          { s with
            m_layers :=
              { udp := { s.m_layers.udp with write_enabled := layers.udp.write_enabled }
                shm := { s.m_layers.shm with write_enabled := layers.shm.write_enabled }
                tcp := { s.m_layers.tcp with write_enabled := layers.tcp.write_enabled } }
            m_connection_count := GetConnectionCount s }
        calls := FireUpdateEvent s k.entity_id info } := by
    unfold ApplyPublication
    simp only [hactive]
    simp only [hset]
    simp [GetConnectionCount, FireUpdateEvent, eventCallback]
  have hcalls : (ApplyPublication s k info layers).calls = FireUpdateEvent s k.entity_id info := by
    rw [hA]
  have hstate : (ApplyPublication s k info layers).state.m_connection_map
      = s.m_connection_map := by rw [hA]
  have hactive2 : mapFind (ApplyPublication s k info layers).state.m_connection_map k
      = some { data_type_info := info, layer_states := layers, state := true } := by
    rw [hstate]; exact hactive
  refine ⟨hstate, ?_, ?_, ?_, ?_, hcalls, ?_, ?_, ?_⟩
  · unfold GetConnectionCount; rw [hstate]
  · rw [hA]
  · intro hcount; rw [hA]; exact hcount.symm
  · rw [hcalls]
    unfold FireUpdateEvent
    split <;> simp [Call.isEventOf]
  · intro cb hcb
    rw [hcalls]
    simp [FireUpdateEvent, hcb]
  · intro hcb
    rw [hcalls]
    simp [FireUpdateEvent, hcb]
  · have hset2 := mapSet_of_mapFind _ k _ hactive2
    rw [hA] at hset2 ⊢
    unfold ApplyPublication
    simp only [hactive]
    simp only [hset2]
    simp [GetConnectionCount]

/-- Witness of C15: publisher "p1" is active and an update_connection callback
(identifier 3) is installed; announcing "p1" again with the same data keeps the table
and invokes callback 3 once. -/
theorem C15_ApplyPublication_idempotent_when_active_witness :
    (ApplyPublication (AddEventCallback exampleOneActive sub_event_update_connection
        (some 3)).state examplePub1 exampleTypeInfo {}).state.m_connection_map
      = (AddEventCallback exampleOneActive sub_event_update_connection
          (some 3)).state.m_connection_map ∧
    (ApplyPublication (AddEventCallback exampleOneActive sub_event_update_connection
        (some 3)).state examplePub1 exampleTypeInfo {}).calls
      = [Call.event 3 "T"
          { type := sub_event_update_connection, clock := 0, tid := "p1",
            tdatatype := exampleTypeInfo }] :=
  have h := C15_ApplyPublication_idempotent_when_active
    (AddEventCallback exampleOneActive sub_event_update_connection (some 3)).state
    examplePub1 exampleTypeInfo {} (by decide)
  ⟨h.1, h.2.2.2.2.2.2.1 3 (by decide)⟩

theorem mapFind_mapErase_ne {κ ν : Type} [DecidableEq κ] (m : List (κ × ν)) (k k2 : κ)
    (hne : k ≠ k2) : mapFind (mapErase m k) k2 = mapFind m k2 := by
  induction m with
  | nil => simp [mapErase]
  | cons p rest ih =>
    obtain ⟨k1, v1⟩ := p
    by_cases h : k1 = k
    · subst h
      simp [mapErase, mapFind, hne, ih]
    · simp [mapErase, mapFind, h, ih]

/-- Frame of the publication calls: `ApplyPublication` and `RemovePublication` never write
the callback registry or the attributes. -/
theorem step_publication_keeps (s : CDataReader) (op : Op) (hop : op.isPublicationOp = true) :
    (step s op).1.m_event_callback_map = s.m_event_callback_map ∧
    (step s op).1.m_attributes = s.m_attributes := by
  cases op with
  | applyPublication k i l =>
    simp only [step, ApplyPublication]
    split <;> exact ⟨rfl, rfl⟩
  | removePublication k => exact ⟨rfl, rfl⟩
  | _ => simp [Op.isPublicationOp] at hop

/-- The entry of another key is not touched by a publication call. -/
theorem step_publication_other_key (s : CDataReader) (op : Op) (k : SPublicationInfo)
    (hother : match op with
      | Op.applyPublication k1 _ _ => k1 ≠ k
      | Op.removePublication k1 => k1 ≠ k
      | _ => False) :
    mapFind (step s op).1.m_connection_map k = mapFind s.m_connection_map k := by
  cases op with
  | applyPublication k1 i l =>
    have hne : k1 ≠ k := hother
    simp only [step, ApplyPublication]
    split <;> exact mapFind_mapSet_ne _ _ _ _ hne
  | removePublication k1 =>
    have hne : k1 ≠ k := hother
    exact mapFind_mapErase_ne _ _ _ hne
  | _ => exact absurd hother (by simp)

/-- What `ApplyPublication` for key `k` does to the entry of `k` and how many connected
events it makes, with a connected callback installed. -/
theorem ApplyPublication_same_key (s : CDataReader) (k : SPublicationInfo)
    (i : SDataTypeInformation) (l : SLayerStates) (cb : CallbackId)
    (hcb : eventCallback s sub_event_connected = some cb) :
    (mapFind s.m_connection_map k = none →
      isActive (ApplyPublication s k i l).state k = false ∧
      ((ApplyPublication s k i l).calls.filter (Call.isEventOf sub_event_connected)).length = 0) ∧
    (mapFind s.m_connection_map k ≠ none → isActive s k = false →
      isActive (ApplyPublication s k i l).state k = true ∧
      ((ApplyPublication s k i l).calls.filter (Call.isEventOf sub_event_connected)).length = 1) ∧
    (isActive s k = true →
      isActive (ApplyPublication s k i l).state k = true ∧
      ((ApplyPublication s k i l).calls.filter (Call.isEventOf sub_event_connected)).length = 0) := by
  have hcon : ∀ t : CDataReader, t.m_event_callback_map = s.m_event_callback_map →
      ((FireConnectEvent t k.entity_id i).filter (Call.isEventOf sub_event_connected)).length
        = 1 := by
    intro t ht
    have : eventCallback t sub_event_connected = some cb := by
      unfold eventCallback at hcb ⊢; rw [ht]; exact hcb
    simp [FireConnectEvent, this, Call.isEventOf]
  have hupd : ∀ t : CDataReader,
      ((FireUpdateEvent t k.entity_id i).filter (Call.isEventOf sub_event_connected)).length
        = 0 := by
    intro t
    unfold FireUpdateEvent
    split <;> simp [Call.isEventOf]
  refine ⟨?_, ?_, ?_⟩
  · intro hnone
    unfold ApplyPublication
    simp only [hnone]
    simp [isActive, mapFind_mapSet_same]
  · intro hsome hinactive
    cases hfind : mapFind s.m_connection_map k with
    | none => exact absurd hfind hsome
    | some c =>
      have hc : c.state = false := by simpa [isActive, hfind] using hinactive
      unfold ApplyPublication
      simp only [hfind, hc]
      refine ⟨by simp [isActive, mapFind_mapSet_same], ?_⟩
      simpa using hcon _ rfl
  · intro hact
    cases hfind : mapFind s.m_connection_map k with
    | none => simp [isActive, hfind] at hact
    | some c =>
      have hc : c.state = true := by simpa [isActive, hfind] using hact
      unfold ApplyPublication
      simp only [hfind, hc]
      refine ⟨by simp [isActive, mapFind_mapSet_same], ?_⟩
      simpa using hupd _

/-- Between removals of key `k`, with a connected callback installed: an active entry
stays active and no further connected event is made for it; an inactive or absent one
gets exactly one connected event if it ends up active and none otherwise. -/
theorem connectedCount_between_removals (k : SPublicationInfo) (cb : CallbackId)
    (ops : List Op) : ∀ s : CDataReader,
    eventCallback s sub_event_connected = some cb →
    (∀ op ∈ ops, op.isPublicationOp = true ∧ op ≠ Op.removePublication k) →
    (isActive s k = true →
      connectedCount k s ops = 0 ∧ isActive (runOps s ops).1 k = true) ∧
    (isActive s k = false →
      connectedCount k s ops = if isActive (runOps s ops).1 k = true then 1 else 0) := by
  induction ops with
  | nil =>
    intro s _ _
    refine ⟨fun h => ⟨rfl, h⟩, fun h => ?_⟩
    simp [connectedCount, runOps, h]
  | cons op rest ih =>
    intro s hcb hops
    have hop := hops op (List.mem_cons_self _ _)
    have hrest : ∀ o ∈ rest, o.isPublicationOp = true ∧ o ≠ Op.removePublication k :=
      fun o ho => hops o (List.mem_cons_of_mem _ ho)
    have hcb2 : eventCallback (step s op).1 sub_event_connected = some cb := by
      unfold eventCallback at hcb ⊢
      rw [(step_publication_keeps s op hop.1).1]
      exact hcb
    obtain ⟨ihA, ihI⟩ := ih (step s op).1 hcb2 hrest
    have hrun : (runOps s (op :: rest)).1 = (runOps (step s op).1 rest).1 := rfl
    rw [hrun]
    -- the contribution of this call and what it does to the entry of `k`
    have hkey : (∃ k1 i l, op = Op.applyPublication k1 i l ∧ k1 = k) ∨
        (connectedCount k s (op :: rest) = connectedCount k (step s op).1 rest ∧
          isActive (step s op).1 k = isActive s k) := by
      cases op with
      | applyPublication k1 i l =>
        by_cases hk : k1 = k
        · exact Or.inl ⟨k1, i, l, rfl, hk⟩
        · right
          refine ⟨by simp [connectedCount, hk], ?_⟩
          unfold isActive
          rw [step_publication_other_key s _ k (by simpa using hk)]
      | removePublication k1 =>
        have hk : k1 ≠ k := fun h => hop.2 (by rw [h])
        right
        refine ⟨by simp [connectedCount], ?_⟩
        unfold isActive
        rw [step_publication_other_key s _ k (by simpa using hk)]
      | _ => simp [Op.isPublicationOp] at hop
    rcases hkey with ⟨k1, i, l, rfl, rfl⟩ | ⟨hcount, hact⟩
    · obtain ⟨hnone, hpend, hactv⟩ := ApplyPublication_same_key s k1 i l cb hcb
      have hcc : connectedCount k1 s (Op.applyPublication k1 i l :: rest)
          = ((ApplyPublication s k1 i l).calls.filter
              (Call.isEventOf sub_event_connected)).length
            + connectedCount k1 (ApplyPublication s k1 i l).state rest := by
        simp [connectedCount, step]
      have hst : (step s (Op.applyPublication k1 i l)).1 = (ApplyPublication s k1 i l).state :=
        rfl
      rw [hst] at ihA ihI ⊢
      rw [hcc]
      refine ⟨fun h => ?_, fun h => ?_⟩
      · obtain ⟨h1, h2⟩ := hactv h
        obtain ⟨h3, h4⟩ := ihA h1
        exact ⟨by omega, h4⟩
      · by_cases hfind : mapFind s.m_connection_map k1 = none
        · obtain ⟨h1, h2⟩ := hnone hfind
          rw [h2, ihI h1]
          simp
        · obtain ⟨h1, h2⟩ := hpend hfind h
          obtain ⟨h3, h4⟩ := ihA h1
          rw [h2, h3, h4]
          simp
    · rw [hcount]
      rw [hact] at ihA ihI
      exact ⟨ihA, ihI⟩

/-- C16 (as stated, refuted): "p1" and "p2" are announced twice each, "p1" is removed and
announced twice again.  No disconnected event is made in the whole run (the table never
gets empty), yet the connected event carrying entity id "p1" is made twice. -/
theorem C16_counterexample_connected_twice_without_disconnected :
    (runOps exampleReaderWithEvents exampleReconnectOps).2.filter
        (Call.isEventOf sub_event_disconnected) = [] ∧
    (runOps exampleReaderWithEvents exampleReconnectOps).2.filter
        (fun c => decide (c = Call.event 2 "T"
          { type := sub_event_connected, clock := 0, tid := "p1", tdatatype := exampleTypeInfo }))
      = [Call.event 2 "T"
          { type := sub_event_connected, clock := 0, tid := "p1", tdatatype := exampleTypeInfo },
         Call.event 2 "T"
          { type := sub_event_connected, clock := 0, tid := "p1", tdatatype := exampleTypeInfo }] ∧
    connectedCount examplePub1 exampleReaderWithEvents exampleReconnectOps = 2 := by
  decide

/-- C16 (amended): for every sequence of `ApplyPublication` and `RemovePublication` calls
in which key `k` is not removed (a stretch between two adjacent removals of `k`, or
between construction and the first one), starting with `k` not active and a connected
callback installed: the `ApplyPublication` calls for `k` make the connected event at most
once, and exactly once if and only if the entry of `k` is active at the end.  Removals of
other keys and disconnected events play no role. -/
theorem C16_connected_once_between_removals_of_key (s : CDataReader) (k : SPublicationInfo)
    (cb : CallbackId) (ops : List Op)
    (hcb : eventCallback s sub_event_connected = some cb)
    (hops : ∀ op ∈ ops, op.isPublicationOp = true ∧ op ≠ Op.removePublication k)
    (hstart : isActive s k = false) :
    connectedCount k s ops ≤ 1 ∧
    (isActive (runOps s ops).1 k = true ↔ connectedCount k s ops = 1) := by
  have h := (connectedCount_between_removals k cb ops s hcb hops).2 hstart
  rw [h]
  by_cases hact : isActive (runOps s ops).1 k = true
  · simp [hact]
  · simp [hact]

/-- Witness of C16 (amended): "p1" announced twice, "p2" announced twice, "p2" removed:
one connected event for "p1", which is active at the end. -/
theorem C16_connected_once_between_removals_of_key_witness :
    connectedCount examplePub1 exampleReaderWithEvents
      [Op.applyPublication examplePub1 exampleTypeInfo {},
       Op.applyPublication examplePub1 exampleTypeInfo {},
       Op.applyPublication examplePub2 exampleTypeInfo {},
       Op.applyPublication examplePub2 exampleTypeInfo {},
       Op.removePublication examplePub2] = 1 :=
  (C16_connected_once_between_removals_of_key exampleReaderWithEvents examplePub1 2 _
    (by decide) (by decide) (by decide)).2.1 (by decide)

/-- C17: on the code a `RemovePublication` on the already empty table fires disconnected
again: removing the only, active publisher "p1" fires disconnected (callback 7) and
empties the table; removing "p1" a second time, with no call in between, so that no
publisher was announced or became active, erases nothing and fires disconnected once
more, because `last_connection_gone` is set from `empty()` alone. -/
theorem C17_RemovePublication_on_empty_table_fires_again :
    isActive exampleOneActive examplePub1 = true ∧
    (RemovePublication exampleOneActive examplePub1).calls
      = [Call.event 7 "T" { type := sub_event_disconnected, clock := 0 }] ∧
    (RemovePublication exampleOneActive examplePub1).state.m_connection_map = [] ∧
    GetConnectionCount (RemovePublication exampleOneActive examplePub1).state = 0 ∧
    (RemovePublication (RemovePublication exampleOneActive examplePub1).state examplePub1).calls
      = [Call.event 7 "T" { type := sub_event_disconnected, clock := 0 }] ∧
    (runOps exampleOneActive
        [Op.removePublication examplePub1, Op.removePublication examplePub1]).2
      = [Call.event 7 "T" { type := sub_event_disconnected, clock := 0 },
         Call.event 7 "T" { type := sub_event_disconnected, clock := 0 }] := by
  decide

/-- C18 (as stated, refuted): under the keep policy, with stored clock 5 for "p1", the
clock check accepts clock 4 and the stored clock afterwards is still 5, not 4. -/
theorem C18_counterexample_keep_policy_stored_clock_stays :
    exampleKeepPolicyClock5.drop_out_of_order_messages = false ∧
    mapFind exampleKeepPolicyClock5.m_writer_counter_map "p1" = some 5 ∧
    (CheckMessageClock exampleKeepPolicyClock5 "p1" 4).ret = true ∧
    mapFind (CheckMessageClock exampleKeepPolicyClock5 "p1" 4).state.m_writer_counter_map "p1"
      = some 5 ∧
    mapFind (CheckMessageClock exampleKeepPolicyClock5 "p1" 4).state.m_writer_counter_map "p1"
      ≠ some 4 := by
  decide

/-- C18 (amended): if `CheckMessageClock tid c` accepts, the stored clock of `tid`
afterwards is `c`, except when the 64-bit difference of `c` to the stored clock `L` is
negative, which is accepted under the keep policy only and leaves the stored clock (the
whole clock map) as it was; when the exact difference `c - L` fits 64 bits, that
exception is the case `c < L`. -/
theorem C18_accepted_clock_is_stored_unless_out_of_order (s : CDataReader) (tid : String)
    (c : Int) (haccept : (CheckMessageClock s tid c).ret = true) :
    ((∃ last, mapFind s.m_writer_counter_map tid = some last ∧ wrapInt64 (c - last) < 0) →
      s.drop_out_of_order_messages = false ∧
      (CheckMessageClock s tid c).state.m_writer_counter_map = s.m_writer_counter_map) ∧
    (¬ (∃ last, mapFind s.m_writer_counter_map tid = some last ∧ wrapInt64 (c - last) < 0) →
      mapFind (CheckMessageClock s tid c).state.m_writer_counter_map tid = some c) ∧
    (∀ last, mapFind s.m_writer_counter_map tid = some last → fitsInt64 (c - last) →
      (wrapInt64 (c - last) < 0 ↔ c < last)) := by
  refine ⟨?_, ?_, ?_⟩
  · rintro ⟨last, hf, hneg⟩
    unfold CheckMessageClock at haccept ⊢
    rw [hf] at haccept ⊢
    dsimp only at haccept ⊢
    have h1 : ¬ wrapInt64 (c - last) = 1 := by omega
    have h0 : ¬ wrapInt64 (c - last) = 0 := by omega
    have hg : ¬ wrapInt64 (c - last) > 1 := by omega
    rw [if_neg h1, if_neg h0, if_neg hg, if_pos hneg] at haccept ⊢
    split_ifs at haccept ⊢ with hd
    exact ⟨by simpa using hd, rfl⟩
  · intro hno
    unfold CheckMessageClock at haccept ⊢
    cases hf : mapFind s.m_writer_counter_map tid with
    | none => simp [mapFind_mapSet_same]
    | some last =>
      rw [hf] at haccept
      have hnn : ¬ wrapInt64 (c - last) < 0 := fun h => hno ⟨last, hf, h⟩
      dsimp only at haccept ⊢
      split_ifs at haccept ⊢ with h1 h0 hg
      · exact mapFind_mapSet_same _ _ _
      · exact mapFind_mapSet_same _ _ _
  · intro last _ hfit
    rw [wrapInt64_of_fits _ hfit]
    omega

/-- Witness of C18 (amended): under the drop policy with stored clock 5, clock 9 is
accepted and stored. -/
theorem C18_accepted_clock_is_stored_unless_out_of_order_witness :
    mapFind (CheckMessageClock exampleDropPolicyClock5 "p1" 9).state.m_writer_counter_map "p1"
      = some 9 :=
  (C18_accepted_clock_is_stored_unless_out_of_order exampleDropPolicyClock5 "p1" 9
    (by decide)).2.1 (by decide)

/-- C19: if `CheckMessageClock tid c` rejects (returns false), then it lets the state as
it was, in particular the clock map and the drop counter, and invokes nothing (no dropped
event); and it rejects only when the publisher has a stored clock and the 64-bit
difference to it is 0, or negative under the drop policy, which for a difference that
fits 64 bits is the exact difference being 0, or negative under the drop policy. -/
theorem C19_rejected_clock_changes_nothing (s : CDataReader) (tid : String) (c : Int)
    (hreject : (CheckMessageClock s tid c).ret = false) :
    (CheckMessageClock s tid c).state.m_writer_counter_map = s.m_writer_counter_map ∧
    (CheckMessageClock s tid c).state.m_message_drops = s.m_message_drops ∧
    (CheckMessageClock s tid c).state = s ∧
    (CheckMessageClock s tid c).calls = [] ∧
    ∃ last, mapFind s.m_writer_counter_map tid = some last ∧
      (wrapInt64 (c - last) = 0 ∨
        (wrapInt64 (c - last) < 0 ∧ s.drop_out_of_order_messages = true)) ∧
      (fitsInt64 (c - last) →
        (c - last = 0 ∨ (c - last < 0 ∧ s.drop_out_of_order_messages = true))) := by
  obtain ⟨hstate, hcalls⟩ := CheckMessageClock_reject s tid c hreject
  refine ⟨by rw [hstate], by rw [hstate], hstate, hcalls, ?_⟩
  unfold CheckMessageClock at hreject
  cases hf : mapFind s.m_writer_counter_map tid with
  | none => rw [hf] at hreject; simp at hreject
  | some last =>
    rw [hf] at hreject
    dsimp only at hreject
    have hchar : wrapInt64 (c - last) = 0 ∨
        (wrapInt64 (c - last) < 0 ∧ s.drop_out_of_order_messages = true) := by
      split_ifs at hreject with h1 h0 hg hn hd
      · exact Or.inl h0
      · exact Or.inr ⟨hn, hd⟩
      · omega
    refine ⟨last, rfl, hchar, fun hfit => ?_⟩
    rw [wrapInt64_of_fits _ hfit] at hchar
    exact hchar

/-- Witness of C19: with stored clock 5, the clock 5 again is rejected and nothing
changes. -/
theorem C19_rejected_clock_changes_nothing_witness :
    (CheckMessageClock exampleDropPolicyClock5 "p1" 5).state = exampleDropPolicyClock5 ∧
    (CheckMessageClock exampleDropPolicyClock5 "p1" 5).calls = [] :=
  have h := C19_rejected_clock_changes_nothing exampleDropPolicyClock5 "p1" 5 (by decide)
  ⟨h.2.2.1, h.2.2.2.1⟩

/-- The drop counter after `ApplySample`: the clock check ran on it exactly when the
sample was delivered. -/
theorem ApplySample_message_drops (s : CDataReader) (a : Sample) :
    (ApplySample s a).state.m_message_drops =
      if delivered s a then
        (CheckMessageClock s a.topic_info_.tid a.clock_).state.m_message_drops
      else s.m_message_drops := by
  by_cases h : delivered s a
  · rw [if_pos h, ApplySample_of_delivered s a h]
    dsimp only
    rw [deliverSample_frame]
    exact (CheckMessageClock_congr s (storeHash (storeReceiveLayer s a.layer_) a.hash_)
      _ _ rfl rfl rfl).2.2
  · rw [if_neg h]
    rcases (ApplySample_of_not_delivered s a h).2 with h1 | h1 | h1 <;> rw [h1] <;> rfl

/-- The clock check on a negative 64-bit difference to the stored clock: rejected under
the drop policy, accepted with a warning under the keep policy, the state untouched in
both cases. -/
theorem CheckMessageClock_out_of_order (t : CDataReader) (tid : String) (c last : Int)
    (hstored : mapFind t.m_writer_counter_map tid = some last)
    (hlt : wrapInt64 (c - last) < 0) :
    CheckMessageClock t tid c =
      if t.drop_out_of_order_messages = true then { ret := false, state := t, calls := [] }
      else { ret := true, state := t,
             calls := [Call.log_warning ("Subscriber: '" ++ t.m_attributes.topic_name ++ "'"
                        ++ " received a message in the wrong order")] } := by
  unfold CheckMessageClock
  rw [hstored]
  dsimp only
  have h1 : ¬ (wrapInt64 (c - last) = 1) := by omega
  have h0 : ¬ (wrapInt64 (c - last) = 0) := by omega
  have hg : ¬ (wrapInt64 (c - last) > 1) := by omega
  rw [if_neg h1, if_neg h0, if_neg hg, if_pos hlt]

theorem deliverSample_calls_no_event (t : CDataReader) (a : Sample) :
    (deliverSample t a).calls.filter Call.isEventCall = [] := by
  unfold deliverSample
  split
  · dsimp only
    split <;> rfl
  · rfl

/-- C20 (as stated, refuted): under the drop policy with stored clock `LLONG_MAX`, a
sample with clock -2, which is below the stored clock, is not rejected: the 64-bit
difference wraps to a positive value, the sample is delivered as a gap, the dropped
callback is invoked, the stored clock becomes -2 and the drop counter grows. -/
theorem C20_counterexample_wrapped_difference_is_a_gap :
    (exampleStoredClock true LLONG_MAX).drop_out_of_order_messages = true ∧
    mapFind (exampleStoredClock true LLONG_MAX).m_writer_counter_map "p1" = some LLONG_MAX ∧
    (exampleSampleAt (-2) 60).clock_ < LLONG_MAX ∧
    delivered (exampleStoredClock true LLONG_MAX) (exampleSampleAt (-2) 60) ∧
    mapFind (ApplySample (exampleStoredClock true LLONG_MAX)
      (exampleSampleAt (-2) 60)).state.m_writer_counter_map "p1" = some (-2) ∧
    (ApplySample (exampleStoredClock true LLONG_MAX)
      (exampleSampleAt (-2) 60)).state.m_message_drops
      ≠ (exampleStoredClock true LLONG_MAX).m_message_drops ∧
    (ApplySample (exampleStoredClock true LLONG_MAX)
      (exampleSampleAt (-2) 60)).calls.filter (Call.isEventOf sub_event_dropped)
      = [Call.event 9 "T" { type := sub_event_dropped, clock := -2 }] := by
  decide

/-- C20 (amended): for a publisher with stored clock `L` and a sample with clock below `L`
whose difference to `L` fits 64 bits (`L - c` at most `2 ^ 63`, as for clocks of one
sign): under the drop policy the clock check rejects, the sample is not delivered and nothing is
invoked; under the keep policy the clock check accepts and the sample is delivered (to
the receive callback, or else into the read slot) whenever it passes the created, layer,
hash and filter checks.  In both cases the stored clock stays `L`, the drop counter is
unchanged and no event callback (so no dropped event) is invoked. -/
theorem C20_out_of_order_sample (s : CDataReader) (a : Sample) (L : Int)
    (hstored : mapFind s.m_writer_counter_map a.topic_info_.tid = some L)
    (hlate : a.clock_ < L) (hfits : fitsInt64 (a.clock_ - L)) :
    (s.drop_out_of_order_messages = true →
      (CheckMessageClock s a.topic_info_.tid a.clock_).ret = false ∧
      ¬ delivered s a ∧ (ApplySample s a).calls = [] ∧
      (ApplySample s a).state.m_clock = s.m_clock ∧
      (ApplySample s a).state.m_read_buf_received = s.m_read_buf_received) ∧
    (s.drop_out_of_order_messages = false →
      (CheckMessageClock s a.topic_info_.tid a.clock_).ret = true ∧
      (delivered s a ↔
        s.m_created = true ∧ layerDisabled s.m_attributes a.layer_ = false ∧
        a.hash_ ∉ s.m_sample_hash_queue ∧
        (s.m_id_set.isEmpty = true ∨ a.id_ ∈ s.m_id_set)) ∧
      (delivered s a → (ApplySample s a).state.m_clock = s.m_clock + 1) ∧
      (delivered s a → ∀ cb, s.m_receive_callback = some cb →
        ((ApplySample s a).calls.filter Call.isReceive).length = 1) ∧
      (delivered s a → s.m_receive_callback = none →
        (ApplySample s a).state.m_read_buf = a.payload_ ∧
        (ApplySample s a).state.m_read_buf_received = true)) ∧
    (CheckMessageClock s a.topic_info_.tid a.clock_).state = s ∧
    mapFind (ApplySample s a).state.m_writer_counter_map a.topic_info_.tid = some L ∧
    (ApplySample s a).state.m_writer_counter_map = s.m_writer_counter_map ∧
    (ApplySample s a).state.m_message_drops = s.m_message_drops ∧
    (ApplySample s a).calls.filter Call.isEventCall = [] := by
  have hneg : wrapInt64 (a.clock_ - L) < 0 := by
    rw [wrapInt64_of_fits _ hfits]; omega
  have hcmc := CheckMessageClock_out_of_order s a.topic_info_.tid a.clock_ L hstored hneg
  have hcmc2 := CheckMessageClock_out_of_order
    (storeHash (storeReceiveLayer s a.layer_) a.hash_) a.topic_info_.tid a.clock_ L hstored hneg
  have hstate : (CheckMessageClock s a.topic_info_.tid a.clock_).state = s := by
    rw [hcmc]; split_ifs <;> rfl
  have hmap : (ApplySample s a).state.m_writer_counter_map = s.m_writer_counter_map := by
    rw [ApplySample_writer_map, hstate]; split_ifs <;> rfl
  have hdrops : (ApplySample s a).state.m_message_drops = s.m_message_drops := by
    rw [ApplySample_message_drops, hstate]; split_ifs <;> rfl
  have hev : (ApplySample s a).calls.filter Call.isEventCall = [] := by
    by_cases hdel : delivered s a
    · rw [ApplySample_of_delivered s a hdel]
      dsimp only
      rw [List.filter_append, deliverSample_calls_no_event, hcmc2]
      split_ifs <;> rfl
    · rw [(ApplySample_of_not_delivered s a hdel).1]; rfl
  refine ⟨fun hd => ?_, fun hk => ?_, hstate, by rw [hmap]; exact hstored, hmap, hdrops, hev⟩
  · have hret : (CheckMessageClock s a.topic_info_.tid a.clock_).ret = false := by
      rw [hcmc, if_pos hd]
    have hnd : ¬ delivered s a := fun h => by
      have := h.2.2.2.2
      rw [hret] at this
      exact Bool.noConfusion this
    obtain ⟨hcalls, hst⟩ := ApplySample_of_not_delivered s a hnd
    refine ⟨hret, hnd, hcalls, ?_, ?_⟩ <;>
      rcases hst with h1 | h1 | h1 <;> rw [h1] <;> rfl
  · have hk2 : ¬ s.drop_out_of_order_messages = true := by simp [hk]
    have hret : (CheckMessageClock s a.topic_info_.tid a.clock_).ret = true := by
      rw [hcmc, if_neg hk2]
    refine ⟨hret, ?_, ?_, ?_, ?_⟩
    · unfold delivered
      constructor
      · intro h; exact ⟨h.1, h.2.1, h.2.2.1, h.2.2.2.1⟩
      · intro h; exact ⟨h.1, h.2.1, h.2.2.1, h.2.2.2, hret⟩
    · intro hdel
      exact (delivered_iff_read_clock_incremented s a).1 hdel
    · intro hdel cb hcb
      rw [(ApplySample_delivered_callback s a cb hdel hcb).1]
      rfl
    · intro hdel hcb
      obtain ⟨_, h2, _, h4⟩ := ApplySample_delivered_no_callback s a hdel hcb
      exact ⟨h2, h4⟩

/-- Witness of C20 (amended): stored clock 5, a sample with clock 4 arrives: dropped under the drop
policy, delivered into the read slot under the keep policy; the stored clock stays 5. -/
theorem C20_out_of_order_sample_witness :
    ¬ delivered exampleDropPolicyClock5 (exampleSample 4 40) ∧
    delivered exampleKeepPolicyClock5 (exampleSample 4 40) ∧
    (ApplySample exampleKeepPolicyClock5 (exampleSample 4 40)).state.m_read_buf = [40] ∧
    mapFind (ApplySample exampleKeepPolicyClock5
      (exampleSample 4 40)).state.m_writer_counter_map "p1" = some 5 :=
  have hd := C20_out_of_order_sample exampleDropPolicyClock5 (exampleSample 4 40) 5
    (by decide) (by decide) (by decide)
  have hk := C20_out_of_order_sample exampleKeepPolicyClock5 (exampleSample 4 40) 5
    (by decide) (by decide) (by decide)
  ⟨(hd.1 (by decide)).2.1, (hk.2.1 (by decide)).2.1.2 (by decide),
    ((hk.2.1 (by decide)).2.2.2.2 ((hk.2.1 (by decide)).2.1.2 (by decide)) (by decide)).1,
    hk.2.2.2.1⟩

/-- A delivered sample stores its size as the topic size. -/
theorem ApplySample_topic_size_of_delivered (s : CDataReader) (a : Sample)
    (hdel : delivered s a) : (ApplySample s a).state.m_topic_size = a.size_ := by
  rw [ApplySample_of_delivered s a hdel]
  dsimp only
  rw [deliverSample_frame]
  rfl

/-- The read clock after a sequence of samples has grown by the number of delivered
samples. -/
theorem runSamples_read_clock (l : List Sample) : ∀ s : CDataReader,
    (runSamples s l).m_clock = s.m_clock + (deliveredCount s l : Int) := by
  induction l with
  | nil => intro s; simp [runSamples, deliveredCount]
  | cons a rest ih =>
    intro s
    rw [runSamples_cons, ih]
    by_cases hdel : delivered s a
    · rw [(delivered_iff_read_clock_incremented s a).1 hdel]
      simp only [deliveredCount, hdel, if_true]
      push_cast
      ring
    · have hsame : (ApplySample s a).state.m_clock = s.m_clock := by
        rcases (ApplySample_of_not_delivered s a hdel).2 with h1 | h1 | h1 <;> rw [h1] <;> rfl
      rw [hsame]
      simp only [deliveredCount, hdel, if_false]
      push_cast
      ring

/-- C21: `ApplySample` increases the read clock `m_clock` (reported as `dclock`) by exactly
1 if and only if the sample is delivered, and then stores the payload length as topic
size; a sample that is not delivered leaves both unchanged.  Hence after any sequence of
ingress samples the read clock has grown by the number of delivered samples, and it is 3
after the in-order samples 1, 2, 3 with distinct hashes on a fresh reader. -/
theorem C21_read_clock_counts_delivered_samples (s : CDataReader) (a : Sample)
    (l : List Sample) :
    (delivered s a ↔ dclock (ApplySample s a).state = dclock s + 1) ∧
    (delivered s a → (ApplySample s a).state.m_topic_size = a.payload_.length) ∧
    (¬ delivered s a →
      dclock (ApplySample s a).state = dclock s ∧
      (ApplySample s a).state.m_topic_size = s.m_topic_size) ∧
    dclock (runSamples s l) = dclock s + (deliveredCount s l : Int) ∧
    dclock (runSamples (exampleReader true)
      [exampleSample 1 11, exampleSample 2 12, exampleSample 3 13]) = 3 := by
  refine ⟨delivered_iff_read_clock_incremented s a,
    fun hdel => ApplySample_topic_size_of_delivered s a hdel, fun hnd => ?_,
    runSamples_read_clock l s, by decide⟩
  constructor <;>
    rcases (ApplySample_of_not_delivered s a hnd).2 with h1 | h1 | h1 <;> rw [h1] <;> rfl

/-- Witness of C21: the second of two samples with the same hash is not delivered; the
read clock stays 1 and the topic size stays 1. -/
theorem C21_read_clock_counts_delivered_samples_witness :
    dclock (ApplySample (ApplySample (exampleReader true) (exampleSample 1 42)).state
      { exampleSample 2 42 with payload_ := [1, 2, 3] }).state = 1 ∧
    (ApplySample (ApplySample (exampleReader true) (exampleSample 1 42)).state
      { exampleSample 2 42 with payload_ := [1, 2, 3] }).state.m_topic_size = 1 :=
  have h := (C21_read_clock_counts_delivered_samples
    (ApplySample (exampleReader true) (exampleSample 1 42)).state
    { exampleSample 2 42 with payload_ := [1, 2, 3] } []).2.2.1 (by decide)
  ⟨h.1.trans (by decide), h.2.trans (by decide)⟩

/-- The layer flags after `ApplySample`: the block "store receive layer" runs exactly when
the reader is created and the arriving layer is enabled, whatever happens to the sample
afterwards. -/
theorem ApplySample_layers (s : CDataReader) (a : Sample) :
    (ApplySample s a).state.m_layers =
      if s.m_created = true ∧ layerDisabled s.m_attributes a.layer_ = false
      then (storeReceiveLayer s a.layer_).m_layers else s.m_layers := by
  by_cases hc : s.m_created = true
  · by_cases hl : layerDisabled s.m_attributes a.layer_ = false
    · rw [if_pos ⟨hc, hl⟩]
      by_cases hh : a.hash_ ∈ s.m_sample_hash_queue
      · rw [ApplySample_of_duplicate_hash s a hc hl hh]
      · by_cases hdel : delivered s a
        · rw [ApplySample_of_delivered s a hdel]
          dsimp only
          rw [deliverSample_frame]
          dsimp only [countSample]
          rw [CheckMessageClock_frame]
          rfl
        · rw [ApplySample_rejected_after_hash s a hc hl hh hdel]
          rfl
    · rw [if_neg (fun h => hl h.2),
        ApplySample_of_not_created_or_disabled s a (Or.inr (by simpa using hl))]
  · rw [if_neg (fun h => hc h.1),
      ApplySample_of_not_created_or_disabled s a (Or.inl (by simpa using hc))]

/-- The active flag of layer `l` after `ApplySample`. -/
theorem ApplySample_layerActive (s : CDataReader) (a : Sample) (l : eTLayerType)
    (hl : l = tl_ecal_udp ∨ l = tl_ecal_shm ∨ l = tl_ecal_tcp) :
    layerActive (ApplySample s a).state l =
      (layerActive s l ||
        (s.m_created && !layerDisabled s.m_attributes a.layer_ && decide (a.layer_ = l))) := by
  have h := ApplySample_layers s a
  by_cases hc : s.m_created = true ∧ layerDisabled s.m_attributes a.layer_ = false
  · rw [if_pos hc] at h
    rcases hl with rfl | rfl | rfl <;>
      simp [layerActive, h, storeReceiveLayer, hc.1, hc.2]
  · rw [if_neg hc] at h
    have hfalse : (s.m_created && !layerDisabled s.m_attributes a.layer_) = false := by
      by_cases h1 : s.m_created = true
      · have h2 : layerDisabled s.m_attributes a.layer_ = true := by
          by_contra h2
          exact hc ⟨h1, by simpa using h2⟩
        simp [h2]
      · simp [h1]
    rcases hl with rfl | rfl | rfl <;> simp [layerActive, h, hfalse]

/-- No member function other than `ApplySample` writes a layer active flag. -/
theorem step_layerActive_of_other (s : CDataReader) (op : Op) (l : eTLayerType)
    (hop : ∀ a, op ≠ Op.applySample a) :
    layerActive (step s op).1 l = layerActive s l := by
  cases op with
  | applySample a => exact absurd rfl (hop a)
  | applyPublication k i ls =>
    simp only [step, ApplyPublication]
    split <;> cases l <;> rfl
  | removePublication k => cases l <;> rfl
  | addReceiveCallback cb =>
    simp only [step, AddReceiveCallback]; split_ifs <;> rfl
  | remReceiveCallback =>
    simp only [step, RemReceiveCallback]; split_ifs <;> rfl
  | addEventCallback t cb =>
    simp only [step, AddEventCallback]; split_ifs <;> rfl
  | remEventCallback t =>
    simp only [step, RemEventCallback]; split_ifs <;> rfl
  | setFilterIDs ids => rfl
  | setAttribute n v => rfl
  | clearAttribute n => rfl
  | read b t ms =>
    simp only [step, Read]
    split_ifs <;> cases l <;> rfl
  | stop =>
    simp only [step, Stop]
    split_ifs
    · rfl
    · cases l <;> simp only [layerActive, StopTransportLayer] <;> split_ifs <;> rfl

/-- The active flag of a layer after one call, whatever the call. -/
theorem step_layerActive (s : CDataReader) (op : Op) (l : eTLayerType)
    (hl : l = tl_ecal_udp ∨ l = tl_ecal_shm ∨ l = tl_ecal_tcp) :
    (layerActive s l = true → layerActive (step s op).1 l = true) ∧
    (op.arrivesOn l = false →
      layerActive (step s op).1 l = layerActive s l) := by
  by_cases hop : ∃ a, op = Op.applySample a
  · obtain ⟨a, rfl⟩ := hop
    have h : layerActive (step s (Op.applySample a)).1 l =
        (layerActive s l ||
          (s.m_created && !layerDisabled s.m_attributes a.layer_ && decide (a.layer_ = l))) :=
      ApplySample_layerActive s a l hl
    refine ⟨fun hact => by rw [h, hact]; rfl, fun hne => ?_⟩
    have : a.layer_ ≠ l := by simpa [Op.arrivesOn] using hne
    rw [h]
    simp [this]
  · have hop2 : ∀ a, op ≠ Op.applySample a := fun a h => hop ⟨a, h⟩
    have h := step_layerActive_of_other s op l hop2
    exact ⟨fun hact => by rw [h]; exact hact, fun _ => h⟩

theorem runOps_layerActive (ops : List Op) (l : eTLayerType)
    (hl : l = tl_ecal_udp ∨ l = tl_ecal_shm ∨ l = tl_ecal_tcp) : ∀ s : CDataReader,
    (layerActive s l = true → layerActive (runOps s ops).1 l = true) ∧
    ((∀ op ∈ ops, op.arrivesOn l = false) →
      layerActive (runOps s ops).1 l = layerActive s l) := by
  induction ops with
  | nil => intro s; exact ⟨fun h => h, fun _ => rfl⟩
  | cons op rest ih =>
    intro s
    obtain ⟨h1, h2⟩ := step_layerActive s op l hl
    obtain ⟨ih1, ih2⟩ := ih (step s op).1
    have hrun : (runOps s (op :: rest)).1 = (runOps (step s op).1 rest).1 := rfl
    rw [hrun]
    refine ⟨fun hact => ih1 (h1 hact), fun hne => ?_⟩
    rw [ih2 (fun o ho => hne o (List.mem_cons_of_mem _ ho)),
      h2 (hne op (List.mem_cons_self _ _))]

/-- C22 (as stated, refuted): on a fresh reader with filter set 5, a sample with filter
id 0 arrives on udp: it is not delivered (the read clock stays 0), yet the udp active flag
is true afterwards. -/
theorem C22_counterexample_rejected_sample_latches_active :
    layerActive exampleFilterReader tl_ecal_udp = false ∧
    ¬ delivered exampleFilterReader (exampleSample 1 42) ∧
    (ApplySample exampleFilterReader (exampleSample 1 42)).state.m_clock = 0 ∧
    layerActive (ApplySample exampleFilterReader (exampleSample 1 42)).state tl_ecal_udp
      = true := by
  decide

/-- C22 (amended): for each layer (udp, shm, tcp) the active flag keeps its value (false
after construction) as long as no sample arrives on that layer; a sample arriving on the
layer sets it as soon as the reader is created and the layer enabled, whether or not the
sample is then delivered; and once true it stays true under every sequence of calls
(`ApplySample`, `ApplyPublication`, `RemovePublication`, `Read` and all others). -/
theorem C22_layer_active_flag (s : CDataReader) (ops : List Op) (a : Sample)
    (l : eTLayerType) (hl : l = tl_ecal_udp ∨ l = tl_ecal_shm ∨ l = tl_ecal_tcp) :
    (layerActive s l = true → layerActive (runOps s ops).1 l = true) ∧
    ((∀ op ∈ ops, op.arrivesOn l = false) →
      layerActive (runOps s ops).1 l = layerActive s l) ∧
    (s.m_created = true → layerDisabled s.m_attributes a.layer_ = false → a.layer_ = l →
      layerActive (ApplySample s a).state l = true) ∧
    (∀ ti attr pol, layerActive (CDataReader.create ti attr pol) l = false) := by
  obtain ⟨h1, h2⟩ := runOps_layerActive ops l hl s
  refine ⟨h1, h2, fun hc hen hlay => ?_, fun ti attr pol => ?_⟩
  · rw [ApplySample_layerActive s a l hl]
    subst hlay
    simp [hc, hen]
  · rcases hl with rfl | rfl | rfl <;>
      simp only [layerActive, CDataReader.create, StartTransportLayer,
        CDataReader.initialMembers] <;> split_ifs <;> rfl

/-- Witness of C22 (amended): the udp flag set by a sample survives announcements, a
removal, a read and a stop; the shm flag stays false as no sample arrived on shm. -/
theorem C22_layer_active_flag_witness :
    layerActive (runOps (ApplySample (exampleReader true) (exampleSample 1 42)).state
      [Op.applyPublication examplePub1 exampleTypeInfo {},
        Op.removePublication examplePub1, Op.read [] none 0, Op.stop]).1 tl_ecal_udp = true ∧
    layerActive (runOps (ApplySample (exampleReader true) (exampleSample 1 42)).state
      [Op.applyPublication examplePub1 exampleTypeInfo {},
        Op.removePublication examplePub1, Op.read [] none 0, Op.stop]).1 tl_ecal_shm = false :=
  ⟨(C22_layer_active_flag (ApplySample (exampleReader true) (exampleSample 1 42)).state _
      (exampleSample 1 42) tl_ecal_udp (Or.inl rfl)).1 (by decide),
   ((C22_layer_active_flag (ApplySample (exampleReader true) (exampleSample 1 42)).state _
      (exampleSample 1 42) tl_ecal_shm (Or.inr (Or.inl rfl))).2.1 (by decide)).trans
      (by decide)⟩

/-- The clock check on a gap (64-bit difference above 1): accepted, the clock stored, the
whole difference added to the drop counter, the dropped event dispatched. -/
theorem CheckMessageClock_gap (t : CDataReader) (tid : String) (c last : Int)
    (hstored : mapFind t.m_writer_counter_map tid = some last)
    (hgap : wrapInt64 (c - last) > 1) :
    CheckMessageClock t tid c =
      { ret := true
        state :=
          { t with
            m_message_drops := t.m_message_drops + wrapInt64 (c - last)
            m_writer_counter_map := mapSet t.m_writer_counter_map tid c }
        calls :=
          (eventCallback t sub_event_dropped).toList.map (fun cb =>
            Call.event cb t.m_attributes.topic_name { type := sub_event_dropped, clock := c }) } := by
  unfold CheckMessageClock
  rw [hstored]
  dsimp only
  have h1 : ¬ (wrapInt64 (c - last) = 1) := by omega
  have h0 : ¬ (wrapInt64 (c - last) = 0) := by omega
  rw [if_neg h1, if_neg h0, if_pos hgap]
  cases eventCallback t sub_event_dropped <;> rfl

/-- The clock check on the next clock (64-bit difference 1): accepted, the clock stored,
nothing else. -/
theorem CheckMessageClock_next (t : CDataReader) (tid : String) (c last : Int)
    (hstored : mapFind t.m_writer_counter_map tid = some last)
    (hnext : wrapInt64 (c - last) = 1) :
    CheckMessageClock t tid c =
      { ret := true
        state := { t with m_writer_counter_map := mapSet t.m_writer_counter_map tid c }
        calls := [] } := by
  unfold CheckMessageClock
  rw [hstored]
  dsimp only
  rw [if_pos hnext]

/-- C23 (as stated, refuted): under the keep policy with stored clock `LLONG_MIN`, a
delivered sample with clock 1 exceeds the stored clock by more than 2, yet the 64-bit
difference wraps to a negative value: the wrong-order branch is taken, the dropped
callback (installed, id 9) is not invoked and only the receive callback is. -/
theorem C23_counterexample_wrapped_difference_no_dropped_event :
    mapFind (exampleStoredClock false LLONG_MIN).m_writer_counter_map "p1"
      = some LLONG_MIN ∧
    (exampleSampleAt 1 60).clock_ - LLONG_MIN ≥ 2 ∧
    eventCallback (exampleStoredClock false LLONG_MIN) sub_event_dropped = some 9 ∧
    (exampleStoredClock false LLONG_MIN).m_receive_callback = some 1 ∧
    delivered (exampleStoredClock false LLONG_MIN) (exampleSampleAt 1 60) ∧
    (ApplySample (exampleStoredClock false LLONG_MIN) (exampleSampleAt 1 60)).calls =
      [Call.log_warning "Subscriber: 'T' received a message in the wrong order",
       Call.receive 1
          { topic_name := "T"
            topic_id := { host_name := "h", entity_id := "p1", process_id := 1 } }
          {} { buf := [60], size := 1, id := 0, time := 1000, clock := 1 }] ∧
    (ApplySample (exampleStoredClock false LLONG_MIN)
      (exampleSampleAt 1 60)).calls.filter (Call.isEventOf sub_event_dropped) = [] := by
  decide

/-- C23 (amended): for a delivered sample whose clock exceeds the publisher's stored clock
by 2 or more, the difference fitting 64 bits, with a dropped callback and a receive callback installed, `ApplySample` invokes
exactly two callbacks: first the dropped callback, once, with `type = sub_event_dropped`
and `clock` equal to the send clock of the sample, then the receive callback for the
sample. -/
theorem C23_dropped_event_before_receive (s : CDataReader) (a : Sample) (L : Int)
    (cbd cbr : CallbackId)
    (hdel : delivered s a)
    (hstored : mapFind s.m_writer_counter_map a.topic_info_.tid = some L)
    (hgap : a.clock_ - L ≥ 2) (hfits : fitsInt64 (a.clock_ - L))
    (hdropped : eventCallback s sub_event_dropped = some cbd)
    (hreceive : s.m_receive_callback = some cbr) :
    (ApplySample s a).calls =
      [Call.event cbd s.m_attributes.topic_name
          { type := sub_event_dropped, clock := a.clock_ },
       Call.receive cbr
          { topic_name := a.topic_info_.tname
            topic_id := { host_name := a.topic_info_.hname, entity_id := a.topic_info_.tid,
                          process_id := a.topic_info_.pid } }
          ((mapFind s.m_connection_map
              { entity_id := a.topic_info_.tid, host_name := a.topic_info_.hname,
                process_id := a.topic_info_.pid }).getD {}).data_type_info
          { buf := a.payload_, size := a.payload_.length, id := a.id_, time := a.time_,
            clock := a.clock_ }] ∧
    (ApplySample s a).calls.filter (Call.isEventOf sub_event_dropped)
      = [Call.event cbd s.m_attributes.topic_name
          { type := sub_event_dropped, clock := a.clock_ }] := by
  have hw : wrapInt64 (a.clock_ - L) = a.clock_ - L := wrapInt64_of_fits _ hfits
  have hcmc := CheckMessageClock_gap (storeHash (storeReceiveLayer s a.layer_) a.hash_)
    a.topic_info_.tid a.clock_ L hstored (by rw [hw]; omega)
  rw [hw] at hcmc
  have hcb2 : eventCallback (storeHash (storeReceiveLayer s a.layer_) a.hash_)
      sub_event_dropped = some cbd := hdropped
  have hcalls : (ApplySample s a).calls =
      [Call.event cbd s.m_attributes.topic_name
          { type := sub_event_dropped, clock := a.clock_ },
       Call.receive cbr
          { topic_name := a.topic_info_.tname
            topic_id := { host_name := a.topic_info_.hname, entity_id := a.topic_info_.tid,
                          process_id := a.topic_info_.pid } }
          ((mapFind s.m_connection_map
              { entity_id := a.topic_info_.tid, host_name := a.topic_info_.hname,
                process_id := a.topic_info_.pid }).getD {}).data_type_info
          { buf := a.payload_, size := a.payload_.length, id := a.id_, time := a.time_,
            clock := a.clock_ }] := by
    rw [ApplySample_of_delivered s a hdel]
    dsimp only
    rw [hcmc, hcb2]
    dsimp only [Option.toList, List.map]
    unfold deliverSample
    have h1 : (countSample
        { storeHash (storeReceiveLayer s a.layer_) a.hash_ with
          m_message_drops :=
            (storeHash (storeReceiveLayer s a.layer_) a.hash_).m_message_drops + (a.clock_ - L)
          m_writer_counter_map :=
            mapSet (storeHash (storeReceiveLayer s a.layer_) a.hash_).m_writer_counter_map
              a.topic_info_.tid a.clock_ } a.size_).m_receive_callback = some cbr := hreceive
    rw [h1]
    dsimp only
    cases hfind : mapFind s.m_connection_map
        { entity_id := a.topic_info_.tid, host_name := a.topic_info_.hname,
          process_id := a.topic_info_.pid } with
    | none =>
      have h2 : mapFind (countSample
          { storeHash (storeReceiveLayer s a.layer_) a.hash_ with
            m_message_drops :=
              (storeHash (storeReceiveLayer s a.layer_) a.hash_).m_message_drops + (a.clock_ - L)
            m_writer_counter_map :=
              mapSet (storeHash (storeReceiveLayer s a.layer_) a.hash_).m_writer_counter_map
                a.topic_info_.tid a.clock_ } a.size_).m_connection_map
          { entity_id := a.topic_info_.tid, host_name := a.topic_info_.hname,
            process_id := a.topic_info_.pid } = none := hfind
      rw [h2]
      rfl
    | some connection =>
      have h2 : mapFind (countSample
          { storeHash (storeReceiveLayer s a.layer_) a.hash_ with
            m_message_drops :=
              (storeHash (storeReceiveLayer s a.layer_) a.hash_).m_message_drops + (a.clock_ - L)
            m_writer_counter_map :=
              mapSet (storeHash (storeReceiveLayer s a.layer_) a.hash_).m_writer_counter_map
                a.topic_info_.tid a.clock_ } a.size_).m_connection_map
          { entity_id := a.topic_info_.tid, host_name := a.topic_info_.hname,
            process_id := a.topic_info_.pid } = some connection := hfind
      rw [h2]
      rfl
  refine ⟨hcalls, ?_⟩
  rw [hcalls]
  simp [Call.isEventOf]

/-- Witness of C23 (amended): stored clock 3, dropped callback 9 and receive callback 1 installed;
the sample with clock 7 makes the dropped event with clock 7, then the receive call. -/
theorem C23_dropped_event_before_receive_witness :
    (ApplySample exampleGapReader (exampleSample 7 70)).calls =
      [Call.event 9 "T" { type := sub_event_dropped, clock := 7 },
       Call.receive 1
          { topic_name := "T"
            topic_id := { host_name := "h", entity_id := "p1", process_id := 1 } }
          {} { buf := [70], size := 1, id := 0, time := 1007, clock := 7 }] :=
  (C23_dropped_event_before_receive exampleGapReader (exampleSample 7 70) 3 9 1
    (by decide) (by decide) (by decide) (by decide) (by decide) (by decide)).1

/-- C26 (as stated, refuted): under the keep policy with stored clock 5, the late sample
with clock `LLONG_MIN` is delivered through the gap branch (the 64-bit difference wraps to
a positive value): the stored clock becomes `LLONG_MIN`, the dropped callback is invoked
and the drop counter grows; the following sample with clock 6 then takes the wrong-order
branch and the stored clock does not become 6. -/
theorem C26_counterexample_wrapped_late_sample_moves_stored_clock :
    (exampleStoredClock false 5).drop_out_of_order_messages = false ∧
    mapFind (exampleStoredClock false 5).m_writer_counter_map "p1" = some 5 ∧
    (exampleSampleAt LLONG_MIN 60).clock_ < 5 ∧
    delivered (exampleStoredClock false 5) (exampleSampleAt LLONG_MIN 60) ∧
    mapFind (ApplySample (exampleStoredClock false 5)
      (exampleSampleAt LLONG_MIN 60)).state.m_writer_counter_map "p1" = some LLONG_MIN ∧
    (ApplySample (exampleStoredClock false 5)
      (exampleSampleAt LLONG_MIN 60)).state.m_message_drops
      ≠ (exampleStoredClock false 5).m_message_drops ∧
    CheckMessageClockBranch (ApplySample (exampleStoredClock false 5)
      (exampleSampleAt LLONG_MIN 60)).state "p1" 6 = ClockBranch.wrong_order ∧
    delivered (ApplySample (exampleStoredClock false 5)
      (exampleSampleAt LLONG_MIN 60)).state (exampleSampleAt 6 61) ∧
    mapFind (ApplySample (ApplySample (exampleStoredClock false 5)
      (exampleSampleAt LLONG_MIN 60)).state
      (exampleSampleAt 6 61)).state.m_writer_counter_map "p1" = some LLONG_MIN := by
  decide

/-- C26 (amended): under the keep policy, for a publisher with stored clock `L`: a late
sample (clock below `L`, the difference fitting 64 bits) that is delivered leaves the stored clock at `L`, and a following sample
of that publisher with clock `L + 1` takes the in-order branch of the clock check: it is
accepted, the stored clock becomes `L + 1`, no event callback is invoked (no dropped
event) and the drop counter is what it was before the late sample; so, given it passes
the created, layer, hash and filter checks, it is delivered. -/
theorem C26_in_order_after_late_sample (s : CDataReader) (a b : Sample) (L : Int)
    (hkeep : s.drop_out_of_order_messages = false)
    (hstored : mapFind s.m_writer_counter_map a.topic_info_.tid = some L)
    (hlate : a.clock_ < L) (hfits : fitsInt64 (a.clock_ - L)) (hdel : delivered s a)
    (hpub : b.topic_info_.tid = a.topic_info_.tid) (hclock : b.clock_ = L + 1) :
    mapFind (ApplySample s a).state.m_writer_counter_map a.topic_info_.tid = some L ∧
    CheckMessageClockBranch (ApplySample s a).state b.topic_info_.tid b.clock_
      = ClockBranch.next_message ∧
    (CheckMessageClock (ApplySample s a).state b.topic_info_.tid b.clock_).ret = true ∧
    (CheckMessageClock (ApplySample s a).state b.topic_info_.tid b.clock_).calls = [] ∧
    mapFind (CheckMessageClock (ApplySample s a).state b.topic_info_.tid
      b.clock_).state.m_writer_counter_map b.topic_info_.tid = some (L + 1) ∧
    (CheckMessageClock (ApplySample s a).state b.topic_info_.tid
      b.clock_).state.m_message_drops = s.m_message_drops ∧
    (delivered (ApplySample s a).state b ↔
      (ApplySample s a).state.m_created = true ∧
      layerDisabled (ApplySample s a).state.m_attributes b.layer_ = false ∧
      b.hash_ ∉ (ApplySample s a).state.m_sample_hash_queue ∧
      ((ApplySample s a).state.m_id_set.isEmpty = true ∨
        b.id_ ∈ (ApplySample s a).state.m_id_set)) ∧
    (ApplySample (ApplySample s a).state b).calls.filter Call.isEventCall = [] ∧
    (ApplySample (ApplySample s a).state b).state.m_message_drops = s.m_message_drops ∧
    (delivered (ApplySample s a).state b →
      mapFind (ApplySample (ApplySample s a).state b).state.m_writer_counter_map
        b.topic_info_.tid = some (L + 1)) := by
  have hneg : wrapInt64 (a.clock_ - L) < 0 := by
    rw [wrapInt64_of_fits _ hfits]; omega
  have hone : wrapInt64 (b.clock_ - L) = 1 := by
    have h : b.clock_ - L = 1 := by omega
    rw [h]; rfl
  have hooo := CheckMessageClock_out_of_order s a.topic_info_.tid a.clock_ L hstored hneg
  have hkeep2 : ¬ s.drop_out_of_order_messages = true := by simp [hkeep]
  rw [if_neg hkeep2] at hooo
  have hmap1 : (ApplySample s a).state.m_writer_counter_map = s.m_writer_counter_map := by
    rw [ApplySample_writer_map, if_pos hdel, hooo]
  have hdrops1 : (ApplySample s a).state.m_message_drops = s.m_message_drops := by
    rw [ApplySample_message_drops, if_pos hdel, hooo]
  have hstored1 : mapFind (ApplySample s a).state.m_writer_counter_map b.topic_info_.tid
      = some L := by rw [hmap1, hpub]; exact hstored
  have hnext := CheckMessageClock_next (ApplySample s a).state b.topic_info_.tid b.clock_ L
    hstored1 hone
  have hbranch : CheckMessageClockBranch (ApplySample s a).state b.topic_info_.tid b.clock_
      = ClockBranch.next_message := by
    unfold CheckMessageClockBranch
    rw [hstored1]
    dsimp only
    rw [if_pos hone]
  have hret : (CheckMessageClock (ApplySample s a).state b.topic_info_.tid b.clock_).ret
      = true := by rw [hnext]
  have hdrops2 : (ApplySample (ApplySample s a).state b).state.m_message_drops
      = s.m_message_drops := by
    rw [ApplySample_message_drops, hnext]
    split_ifs <;> exact hdrops1
  have hev : (ApplySample (ApplySample s a).state b).calls.filter Call.isEventCall = [] := by
    by_cases hdb : delivered (ApplySample s a).state b
    · rw [ApplySample_of_delivered _ b hdb]
      dsimp only
      rw [List.filter_append, deliverSample_calls_no_event,
        CheckMessageClock_next
          (storeHash (storeReceiveLayer (ApplySample s a).state b.layer_) b.hash_)
          b.topic_info_.tid b.clock_ L hstored1 (by omega)]
      rfl
    · rw [(ApplySample_of_not_delivered _ b hdb).1]; rfl
  refine ⟨by rw [hmap1]; exact hstored, hbranch, hret, by rw [hnext], ?_, ?_, ?_, hev,
    hdrops2, ?_⟩
  · rw [hnext, hclock]
    exact mapFind_mapSet_same _ _ _
  · rw [hnext]
    exact hdrops1
  · unfold delivered
    constructor
    · intro h; exact ⟨h.1, h.2.1, h.2.2.1, h.2.2.2.1⟩
    · intro h; exact ⟨h.1, h.2.1, h.2.2.1, h.2.2.2, hret⟩
  · intro hdb
    rw [ApplySample_writer_map, if_pos hdb, hnext, hclock]
    exact mapFind_mapSet_same _ _ _

/-- Witness of C26 (amended): keep policy, stored clock 5; the late sample with clock 4 is
delivered, then the sample with clock 6 is delivered as the next message: stored clock 6,
drop counter 0. -/
theorem C26_in_order_after_late_sample_witness :
    delivered (ApplySample exampleKeepPolicyClock5 (exampleSample 4 40)).state
      (exampleSample 6 60) ∧
    mapFind (ApplySample (ApplySample exampleKeepPolicyClock5 (exampleSample 4 40)).state
      (exampleSample 6 60)).state.m_writer_counter_map "p1" = some 6 ∧
    (ApplySample (ApplySample exampleKeepPolicyClock5 (exampleSample 4 40)).state
      (exampleSample 6 60)).state.m_message_drops = 0 :=
  have h := C26_in_order_after_late_sample exampleKeepPolicyClock5 (exampleSample 4 40)
    (exampleSample 6 60) 5 (by decide) (by decide) (by decide) (by decide) (by decide)
    (by decide) (by decide)
  ⟨h.2.2.2.2.2.2.1.2 (by decide),
   h.2.2.2.2.2.2.2.2.2 (h.2.2.2.2.2.2.1.2 (by decide)),
   h.2.2.2.2.2.2.2.2.1.trans (by decide)⟩

theorem foldl_count_eq_countP {α : Type} (p : α → Bool) (l : List α) : ∀ n : Nat,
    l.foldl (fun count x => if p x = true then count + 1 else count) n = n + l.countP p := by
  induction l with
  | nil => intro n; simp
  | cons x xs ih =>
    intro n
    rw [List.foldl_cons, ih]
    by_cases hx : p x = true
    · simp [hx, List.countP_cons_of_pos]; omega
    · simp [hx]

/-- The value of `GetConnectionCount` is the number of table entries whose state is set. -/
theorem GetConnectionCount_eq_countP (s : CDataReader) :
    GetConnectionCount s = s.m_connection_map.countP (fun sub => sub.2.state) := by
  unfold GetConnectionCount
  rw [foldl_count_eq_countP (fun sub : SPublicationInfo × SConnection => sub.2.state)]
  simp

theorem mapSet_of_absent {κ ν : Type} [DecidableEq κ] (m : List (κ × ν)) (k : κ) (v : ν)
    (h : mapFind m k = none) : mapSet m k v = m ++ [(k, v)] := by
  induction m with
  | nil => rfl
  | cons p rest ih =>
    obtain ⟨k1, v1⟩ := p
    by_cases hk : k1 = k
    · simp [mapFind, hk] at h
    · simp only [mapFind, hk, if_false] at h
      simp [mapSet, hk, ih h]

/-- The delivery block leaves the stored connection count and the number of active
entries as they are: the entry `m_connection_map[pub_info]` may add has its state unset. -/
theorem deliverSample_connection_count (t : CDataReader) (a : Sample) :
    (deliverSample t a).state.m_connection_count = t.m_connection_count ∧
    GetConnectionCount (deliverSample t a).state = GetConnectionCount t := by
  unfold deliverSample
  split
  · dsimp only
    split
    · exact ⟨rfl, rfl⟩
    · rename_i hfind
      refine ⟨rfl, ?_⟩
      rw [GetConnectionCount_eq_countP, GetConnectionCount_eq_countP]
      dsimp only
      rw [mapSet_of_absent _ _ _ hfind, List.countP_append]
      simp
  · exact ⟨rfl, rfl⟩

theorem ApplySample_connection_count (s : CDataReader) (a : Sample) :
    (ApplySample s a).state.m_connection_count = s.m_connection_count ∧
    GetConnectionCount (ApplySample s a).state = GetConnectionCount s := by
  by_cases hdel : delivered s a
  · rw [ApplySample_of_delivered s a hdel]
    dsimp only
    obtain ⟨h1, h2⟩ := deliverSample_connection_count
      (countSample (CheckMessageClock (storeHash (storeReceiveLayer s a.layer_) a.hash_)
        a.topic_info_.tid a.clock_).state a.size_) a
    rw [h1, h2]
    dsimp only [countSample]
    rw [CheckMessageClock_frame]
    exact ⟨rfl, rfl⟩
  · rcases (ApplySample_of_not_delivered s a hdel).2 with h1 | h1 | h1 <;> rw [h1] <;>
      exact ⟨rfl, rfl⟩

/-- Every member function keeps the stored connection count equal to the number of active
entries. -/
theorem step_connection_count (s : CDataReader) (op : Op)
    (hinv : s.m_connection_count = GetConnectionCount s) :
    (step s op).1.m_connection_count = GetConnectionCount (step s op).1 := by
  cases op with
  | applySample a =>
    obtain ⟨h1, h2⟩ := ApplySample_connection_count s a
    show (ApplySample s a).state.m_connection_count = GetConnectionCount (ApplySample s a).state
    rw [h1, h2]; exact hinv
  | applyPublication k i l =>
    simp only [step, ApplyPublication]
    split <;> rfl
  | removePublication k => rfl
  | addReceiveCallback cb =>
    simp only [step, AddReceiveCallback]; split_ifs <;> exact hinv
  | remReceiveCallback =>
    simp only [step, RemReceiveCallback]; split_ifs <;> exact hinv
  | addEventCallback t cb =>
    simp only [step, AddEventCallback]; split_ifs <;> exact hinv
  | remEventCallback t =>
    simp only [step, RemEventCallback]; split_ifs <;> exact hinv
  | setFilterIDs ids => exact hinv
  | setAttribute n v => exact hinv
  | clearAttribute n => exact hinv
  | read b t ms =>
    simp only [step, Read]
    split_ifs <;> exact hinv
  | stop =>
    simp only [step, Stop]; split_ifs <;> exact hinv

theorem runOps_connection_count (ops : List Op) : ∀ s : CDataReader,
    s.m_connection_count = GetConnectionCount s →
    (runOps s ops).1.m_connection_count = GetConnectionCount (runOps s ops).1 := by
  induction ops with
  | nil => intro s h; exact h
  | cons op rest ih =>
    intro s h
    exact ih (step s op).1 (step_connection_count s op h)

/-- C27: in every state reached by any sequence of calls (`ApplyPublication`,
`RemovePublication`, `ApplySample` and all others) from a state in which the stored
connection count is the number of active entries, as it is after construction, the stored
connection count, which `GetPublisherCount` returns, is the number of connection table
entries with state set, and `IsPublished` returns true exactly when that number is
positive. -/
theorem C27_connection_count_is_number_of_active_entries (s : CDataReader) (ops : List Op)
    (hstart : s.m_connection_count = GetConnectionCount s) :
    GetPublisherCount (runOps s ops).1
      = (runOps s ops).1.m_connection_map.countP (fun sub => sub.2.state) ∧
    (IsPublished (runOps s ops).1 = true
      ↔ 0 < (runOps s ops).1.m_connection_map.countP (fun sub => sub.2.state)) ∧
    (∀ topic_info_ attr_ drop_out_of_order,
      (CDataReader.create topic_info_ attr_ drop_out_of_order).m_connection_count
        = GetConnectionCount (CDataReader.create topic_info_ attr_ drop_out_of_order)) := by
  have h := runOps_connection_count ops s hstart
  rw [GetConnectionCount_eq_countP] at h
  refine ⟨h, ?_, fun _ _ _ => rfl⟩
  unfold IsPublished
  rw [h]
  simp

/-- Witness of C27: after "p1" and "p2" were announced twice each, "p1" removed and
announced twice again, the publisher count is 2 and the topic is published. -/
theorem C27_connection_count_is_number_of_active_entries_witness :
    GetPublisherCount (runOps exampleReaderWithEvents exampleReconnectOps).1 = 2 ∧
    IsPublished (runOps exampleReaderWithEvents exampleReconnectOps).1 = true :=
  have h := C27_connection_count_is_number_of_active_entries exampleReaderWithEvents
    exampleReconnectOps (by decide)
  ⟨h.1.trans (by decide), h.2.1.2 (by decide)⟩

/-- C28: with a receive callback installed, a delivered sample of a publisher that has no
entry in the connection table makes `ApplySample` add a value-initialised entry for that
publisher (empty data type info, state false) and hand that empty data type info to the
callback; the stored connection count and the number of active entries do not change. -/
theorem C28_ApplySample_adds_inactive_entry (s : CDataReader) (a : Sample) (cb : CallbackId)
    (hdel : delivered s a) (hcb : s.m_receive_callback = some cb)
    (habsent : mapFind s.m_connection_map
      { entity_id := a.topic_info_.tid, host_name := a.topic_info_.hname,
        process_id := a.topic_info_.pid } = none) :
    (ApplySample s a).state.m_connection_map
      = s.m_connection_map ++
          [({ entity_id := a.topic_info_.tid, host_name := a.topic_info_.hname,
              process_id := a.topic_info_.pid },
            { data_type_info := {}, layer_states := {}, state := false })] ∧
    mapFind (ApplySample s a).state.m_connection_map
      { entity_id := a.topic_info_.tid, host_name := a.topic_info_.hname,
        process_id := a.topic_info_.pid }
      = some { data_type_info := {}, layer_states := {}, state := false } ∧
    (ApplySample s a).calls.filter Call.isReceive =
      [Call.receive cb
        { topic_name := a.topic_info_.tname
          topic_id := { host_name := a.topic_info_.hname, entity_id := a.topic_info_.tid,
                        process_id := a.topic_info_.pid } }
        {}
        { buf := a.payload_, size := a.payload_.length, id := a.id_, time := a.time_,
          clock := a.clock_ }] ∧
    (ApplySample s a).state.m_connection_count = s.m_connection_count ∧
    GetConnectionCount (ApplySample s a).state = GetConnectionCount s := by
  obtain ⟨hcount, hactive⟩ := ApplySample_connection_count s a
  have hcalls := (ApplySample_delivered_callback s a cb hdel hcb).1
  rw [habsent] at hcalls
  have hmap : (ApplySample s a).state.m_connection_map
      = mapSet s.m_connection_map
          { entity_id := a.topic_info_.tid, host_name := a.topic_info_.hname,
            process_id := a.topic_info_.pid }
          { data_type_info := {}, layer_states := {}, state := false } := by
    rw [ApplySample_of_delivered s a hdel]
    dsimp only
    obtain ⟨h1, h2, _, _, _⟩ := delivery_stage_callback s a
    have h1 := h1.trans hcb
    unfold deliverSample
    rw [h1]
    dsimp only
    rw [h2, habsent]
  refine ⟨?_, ?_, hcalls, hcount, hactive⟩
  · rw [hmap, mapSet_of_absent _ _ _ habsent]
  · rw [hmap]
    exact mapFind_mapSet_same _ _ _

/-- Witness of C28: a fresh reader with receive callback 1 gets a sample of publisher
"p1", which was never announced: an inactive entry for "p1" is added and the callback
gets the empty data type info. -/
theorem C28_ApplySample_adds_inactive_entry_witness :
    mapFind (ApplySample exampleCallbackReader (exampleSample 1 42)).state.m_connection_map
      examplePub1 = some { data_type_info := {}, layer_states := {}, state := false } ∧
    (ApplySample exampleCallbackReader (exampleSample 1 42)).state.m_connection_count = 0 :=
  have h := C28_ApplySample_adds_inactive_entry exampleCallbackReader (exampleSample 1 42) 1
    (by decide) (by decide) (by decide)
  ⟨h.2.1, h.2.2.2.1.trans (by decide)⟩

/-- The hash just pushed is in the trimmed queue. -/
theorem mem_popWhileOver_push (q : List Nat) (h : Nat) :
    h ∈ popWhileOver 64 (q ++ [h]) := by
  rw [popWhileOver_eq_drop]
  have hle : (q ++ [h]).length - 64 ≤ q.length := by
    simp only [List.length_append, List.length_singleton]
    omega
  rw [List.drop_append_of_le_length hle]
  simp

/-- C29: the payload hash is stored before the filter id and the clock are checked: if a
sample with a hash that is not in the queue (reader created, layer enabled) is not
delivered, because the filter or `CheckMessageClock` rejects it, its hash is in the queue
afterwards, and a sample with the same hash that follows immediately is stopped by the
hash check, whatever its filter id and clock: `ApplySample` returns its payload size,
invokes nothing and only latches the layer flag. -/
theorem C29_rejected_sample_still_blocks_its_hash (s : CDataReader) (a b : Sample)
    (hcreated : s.m_created = true)
    (hlayer : layerDisabled s.m_attributes a.layer_ = false)
    (hfresh : a.hash_ ∉ s.m_sample_hash_queue)
    (hrejected : ¬ delivered s a)
    (hsame : b.hash_ = a.hash_)
    (hlayer2 : layerDisabled s.m_attributes b.layer_ = false) :
    (ApplySample s a).ret = 0 ∧
    a.hash_ ∈ (ApplySample s a).state.m_sample_hash_queue ∧
    ¬ delivered (ApplySample s a).state b ∧
    ApplySample (ApplySample s a).state b =
      { ret := b.size_, state := storeReceiveLayer (ApplySample s a).state b.layer_,
        calls := [] } := by
  have hA := ApplySample_rejected_after_hash s a hcreated hlayer hfresh hrejected
  have hmem : a.hash_ ∈ (ApplySample s a).state.m_sample_hash_queue := by
    rw [hA]
    exact mem_popWhileOver_push _ _
  have hk := ApplySample_keeps s a
  have hc2 : (ApplySample s a).state.m_created = true := hk.2.1.trans hcreated
  have hl2 : layerDisabled (ApplySample s a).state.m_attributes b.layer_ = false := by
    rw [hk.2.2.1]; exact hlayer2
  have hmem2 : b.hash_ ∈ (ApplySample s a).state.m_sample_hash_queue := by
    rw [hsame]; exact hmem
  refine ⟨by rw [hA], hmem, fun hd => hd.2.2.1 hmem2,
    ApplySample_of_duplicate_hash _ b hc2 hl2 hmem2⟩

/-- Witness of C29: with filter set 5, a sample with filter id 0 and hash 42 is
rejected; the sample with filter id 5 and the same hash that follows is stopped by the
hash check and returns its payload size 1. -/
theorem C29_rejected_sample_still_blocks_its_hash_witness :
    (ApplySample (ApplySample exampleFilterReader (exampleSample 1 42)).state
      { exampleSample 1 42 with id_ := 5 }).ret = 1 ∧
    (ApplySample (ApplySample exampleFilterReader (exampleSample 1 42)).state
      { exampleSample 1 42 with id_ := 5 }).calls = [] ∧
    delivered exampleFilterReader { exampleSample 1 42 with id_ := 5 } :=
  have h := C29_rejected_sample_still_blocks_its_hash exampleFilterReader (exampleSample 1 42)
    { exampleSample 1 42 with id_ := 5 } (by decide) (by decide) (by decide) (by decide)
    (by decide) (by decide)
  ⟨(congrArg Result.ret h.2.2.2).trans (by decide), congrArg Result.calls h.2.2.2, by decide⟩

/-- C30: the `return false` after "should never be reached" in `CheckMessageClock` is
never reached: for every clock map, publisher id and clock the function returns at
exactly one of the five earlier return statements, the one whose condition holds on the
64-bit clock difference (new key; difference 1; difference 0; difference above 1;
difference below 0), and its return value is the one of that statement; for a pair of
clocks whose difference does not overflow the conditions are those on the exact
difference `c - last`. -/
theorem C30_final_return_unreachable (s : CDataReader) (tid : String) (c : Int) :
    CheckMessageClockBranch s tid c ≠ ClockBranch.never_reached ∧
    (CheckMessageClockBranch s tid c = ClockBranch.initial_entry
      ↔ mapFind s.m_writer_counter_map tid = none) ∧
    (CheckMessageClockBranch s tid c = ClockBranch.next_message
      ↔ ∃ last, mapFind s.m_writer_counter_map tid = some last ∧ wrapInt64 (c - last) = 1) ∧
    (CheckMessageClockBranch s tid c = ClockBranch.duplicate
      ↔ ∃ last, mapFind s.m_writer_counter_map tid = some last ∧ wrapInt64 (c - last) = 0) ∧
    (CheckMessageClockBranch s tid c = ClockBranch.message_drop
      ↔ ∃ last, mapFind s.m_writer_counter_map tid = some last ∧ wrapInt64 (c - last) > 1) ∧
    (CheckMessageClockBranch s tid c = ClockBranch.wrong_order
      ↔ ∃ last, mapFind s.m_writer_counter_map tid = some last ∧ wrapInt64 (c - last) < 0) ∧
    (CheckMessageClock s tid c).ret
      = (CheckMessageClockBranch s tid c).verdict s.drop_out_of_order_messages ∧
    ((∀ last, mapFind s.m_writer_counter_map tid = some last → fitsInt64 (c - last)) →
      (CheckMessageClockBranch s tid c = ClockBranch.next_message
        ↔ ∃ last, mapFind s.m_writer_counter_map tid = some last ∧ c - last = 1) ∧
      (CheckMessageClockBranch s tid c = ClockBranch.duplicate
        ↔ ∃ last, mapFind s.m_writer_counter_map tid = some last ∧ c - last = 0) ∧
      (CheckMessageClockBranch s tid c = ClockBranch.message_drop
        ↔ ∃ last, mapFind s.m_writer_counter_map tid = some last ∧ c - last > 1) ∧
      (CheckMessageClockBranch s tid c = ClockBranch.wrong_order
        ↔ ∃ last, mapFind s.m_writer_counter_map tid = some last ∧ c - last < 0)) := by
  have hmain : CheckMessageClockBranch s tid c ≠ ClockBranch.never_reached ∧
      (CheckMessageClockBranch s tid c = ClockBranch.initial_entry
        ↔ mapFind s.m_writer_counter_map tid = none) ∧
      (CheckMessageClockBranch s tid c = ClockBranch.next_message
        ↔ ∃ last, mapFind s.m_writer_counter_map tid = some last ∧
            wrapInt64 (c - last) = 1) ∧
      (CheckMessageClockBranch s tid c = ClockBranch.duplicate
        ↔ ∃ last, mapFind s.m_writer_counter_map tid = some last ∧
            wrapInt64 (c - last) = 0) ∧
      (CheckMessageClockBranch s tid c = ClockBranch.message_drop
        ↔ ∃ last, mapFind s.m_writer_counter_map tid = some last ∧
            wrapInt64 (c - last) > 1) ∧
      (CheckMessageClockBranch s tid c = ClockBranch.wrong_order
        ↔ ∃ last, mapFind s.m_writer_counter_map tid = some last ∧
            wrapInt64 (c - last) < 0) ∧
      (CheckMessageClock s tid c).ret
        = (CheckMessageClockBranch s tid c).verdict s.drop_out_of_order_messages := by
    unfold CheckMessageClockBranch CheckMessageClock
    cases hf : mapFind s.m_writer_counter_map tid with
    | none => simp [ClockBranch.verdict]
    | some last =>
      dsimp only
      by_cases h1 : wrapInt64 (c - last) = 1
      · simp [h1, ClockBranch.verdict]
      by_cases h0 : wrapInt64 (c - last) = 0
      · simp [h0, ClockBranch.verdict]
      by_cases hg : wrapInt64 (c - last) > 1
      · have hn : ¬ wrapInt64 (c - last) < 0 := by omega
        simp [h1, h0, hg, hn, ClockBranch.verdict]
      have hn : wrapInt64 (c - last) < 0 := by omega
      by_cases hd : s.drop_out_of_order_messages = true
      · simp [h1, h0, hg, hn, hd, ClockBranch.verdict]
      · simp [h1, h0, hg, hn, hd, ClockBranch.verdict]
  refine ⟨hmain.1, hmain.2.1, hmain.2.2.1, hmain.2.2.2.1, hmain.2.2.2.2.1,
    hmain.2.2.2.2.2.1, hmain.2.2.2.2.2.2, fun hfit => ⟨?_, ?_, ?_, ?_⟩⟩
  · rw [hmain.2.2.1]
    constructor <;> rintro ⟨last, hl, h⟩ <;> refine ⟨last, hl, ?_⟩ <;>
      have hw := wrapInt64_of_fits _ (hfit last hl) <;> omega
  · rw [hmain.2.2.2.1]
    constructor <;> rintro ⟨last, hl, h⟩ <;> refine ⟨last, hl, ?_⟩ <;>
      have hw := wrapInt64_of_fits _ (hfit last hl) <;> omega
  · rw [hmain.2.2.2.2.1]
    constructor <;> rintro ⟨last, hl, h⟩ <;> refine ⟨last, hl, ?_⟩ <;>
      have hw := wrapInt64_of_fits _ (hfit last hl) <;> omega
  · rw [hmain.2.2.2.2.2.1]
    constructor <;> rintro ⟨last, hl, h⟩ <;> refine ⟨last, hl, ?_⟩ <;>
      have hw := wrapInt64_of_fits _ (hfit last hl) <;> omega

/-- Witness of C30: with stored clock 5 and clock 9 the difference 4 does not overflow and
the check returns at the gap branch, the one with difference above 1. -/
theorem C30_final_return_unreachable_witness :
    CheckMessageClockBranch exampleDropPolicyClock5 "p1" 9 = ClockBranch.message_drop ∧
    ∃ last, mapFind exampleDropPolicyClock5.m_writer_counter_map "p1" = some last ∧
      (9 : Int) - last > 1 :=
  have h := (C30_final_return_unreachable exampleDropPolicyClock5 "p1" 9).2.2.2.2.2.2.2
    (by decide)
  ⟨by decide, h.2.2.1.mp (by decide)⟩

end eCAL
